import Mathlib

/-!
Verification development for the SBML import/export module
(`cobra/io/sbml.py`).  The Python source is shallowly embedded: strings
become `List Char`, Python floats become `Rat`, Python dicts become
association lists with insertion-order semantics, the libsbml document
tree becomes a family of Lean structures, and fallible code returns
`Except`.  Definitions follow the source line by line; external
collaborators (libsbml accessors, the cobra container classes, the
solver utilities) are modelled at their interface boundary as described
in the specification.
-/

namespace Cobra

/-- Strings are modelled as lists of characters so that the Python string
operations (replace, split, strip, startswith) can be given exact
executable definitions. -/
abbrev Str := List Char

/-- Literal helper: converts a Lean string literal into the `Str` model. -/
def str (s : String) : Str := s.toList

/-- Python whitespace class (the ASCII part of `\s`, which is also what
`str.strip()` removes on the inputs handled here). -/
def isSpaceChar (c : Char) : Bool :=
  c = ' ' || c = '\t' || c = '\n' || c = '\r' || c = '\x0b' || c = '\x0c'

/-- Python word-character class `\w` (ASCII part). -/
def isWordChar (c : Char) : Bool := c.isAlphanum || c = '_'

/-- Python `str.strip()` (leading part). -/
def dropTrailing (p : Char → Bool) (s : Str) : Str :=
  (s.reverse.dropWhile p).reverse

/-- Python `str.strip()`: removes whitespace from both ends. -/
def stripS (s : Str) : Str := dropTrailing isSpaceChar (s.dropWhile isSpaceChar)

/-- Worker of `replaceS`: scans the string one character at a time; a
positive skip counter consumes the remainder of an already-replaced
occurrence, and at skip `0` a pattern occurrence at the current position
emits the replacement and schedules the rest of the occurrence to be
skipped. -/
def replaceGo (pat rep : Str) : Str → Nat → Str
  | [], _ => []
  | _ :: cs, Nat.succ k => replaceGo pat rep cs k
  | c :: cs, 0 =>
    if pat.isPrefixOf (c :: cs) then rep ++ replaceGo pat rep cs (pat.length - 1)
    else c :: replaceGo pat rep cs 0

/-- Python `str.replace(pat, rep)`: leftmost, non-overlapping, greedy scan.
An empty pattern leaves the string unchanged (the source only ever calls
this with non-empty patterns). -/
def replaceS (pat rep s : Str) : Str :=
  match pat with
  | [] => s
  | _ :: _ => replaceGo pat rep s 0

/-- Python `str.split(sep)` for a single-character separator: keeps empty
pieces, and splitting the empty string yields one empty piece. -/
def splitOnChar (sep : Char) (s : Str) : List Str :=
  match s with
  | [] => [[]]
  | c :: cs =>
    let r := splitOnChar sep cs
    if c = sep then [] :: r
    else
      match r with
      | h :: t => (c :: h) :: t
      | [] => [[c]]

/-- Python `sep.join(pieces)`. -/
def joinSep (sep : Str) : List Str → Str
  | [] => []
  | [x] => x
  | x :: xs => x ++ sep ++ joinSep sep xs

/-- Python `int(s)` on a string: strips whitespace, accepts an optional
sign followed by at least one digit; any other shape raises `ValueError`,
modelled as `none`. -/
def parseIntS (s : Str) : Option Int :=
  let t := stripS s
  let core : Option (Bool × Str) :=
    match t with
    | '-' :: rest => some (true, rest)
    | '+' :: rest => some (false, rest)
    | rest => some (false, rest)
  match core with
  | some (neg, ds) =>
    if ds ≠ [] ∧ ds.all Char.isDigit then
      let n : Nat := ds.foldl (fun acc c => 10 * acc + (c.toNat - '0'.toNat)) 0
      some (if neg then -(n : Int) else (n : Int))
    else none
  | none => none

/-- Ordered dictionary with Python semantics: a key keeps its first
insertion position, an update replaces the stored value in place. -/
abbrev Dict (α : Type) := List (Str × α)

/-- Python `key in dict`. -/
def dictContains (d : Dict α) (k : Str) : Bool := d.any (fun kv => kv.1 = k)

/-- Python `dict[key]` / `dict.get(key)` as an `Option`. -/
def dictLookup (d : Dict α) (k : Str) : Option α :=
  match d with
  | [] => none
  | kv :: rest => if kv.1 = k then some kv.2 else dictLookup rest k

/-- Python `dict[key] = value`: update in place if present, else append. -/
def dictInsert (d : Dict α) (k : Str) (v : α) : Dict α :=
  if dictContains d k then
    d.map (fun kv => if kv.1 = k then (kv.1, v) else kv)
  else d ++ [(k, v)]

-- ---------------------------------------------------------------------------
-- Defaults and constants for writing SBML (source lines 60-83).
-- `cobra.Configuration()` is an external collaborator; its process-wide
-- default bounds (-1000 / 1000) are captured at import time by the source.
-- ---------------------------------------------------------------------------

/-- Process-wide configured default lower bound (`config.lower_bound`). -/
def LOWER_BOUND : Rat := -1000

/-- Process-wide configured default upper bound (`config.upper_bound`). -/
def UPPER_BOUND : Rat := 1000

def LOWER_BOUND_ID : Str := str "cobra_default_lb"

def UPPER_BOUND_ID : Str := str "cobra_default_ub"

def ZERO_BOUND_ID : Str := str "cobra_0_bound"

def SBO_FBA_FRAMEWORK : Str := str "SBO:0000624"

def SBO_DEFAULT_FLUX_BOUND : Str := str "SBO:0000626"

def SBO_FLUX_BOUND : Str := str "SBO:0000625"

/-- `LONG_SHORT_DIRECTION` lookup (`maximize -> max`, `minimize -> min`). -/
def LONG_SHORT_DIRECTION : Dict Str :=
  [(str "maximize", str "max"), (str "minimize", str "min")]

-- ---------------------------------------------------------------------------
-- Functions for id replacements (source lines 88-141).
-- ---------------------------------------------------------------------------

def SBML_DOT : Str := str "__SBML_DOT__"

/-- Clips a prefix from the beginning of a string if it exists
(`_clip(sid, prefix)`). -/
def _clip (sid pre : Str) : Str :=
  if pre.isPrefixOf sid then sid.drop pre.length else sid

/-- Clips gene prefix from id (`_f_gene`, default prefix `G_`). -/
def _f_gene (sid : Str) : Str :=
  _clip (replaceS SBML_DOT (str ".") sid) (str "G_")

/-- Adds gene prefix to id (`_f_gene_rev`, default prefix `G_`). -/
def _f_gene_rev (sid : Str) : Str :=
  str "G_" ++ replaceS (str ".") SBML_DOT sid

/-- Clips specie/metabolite prefix from id (`_f_specie`). -/
def _f_specie (sid : Str) : Str := _clip sid (str "M_")

/-- Adds specie/metabolite prefix to id (`_f_specie_rev`). -/
def _f_specie_rev (sid : Str) : Str := str "M_" ++ sid

/-- Clips reaction prefix from id (`_f_reaction`). -/
def _f_reaction (sid : Str) : Str := _clip sid (str "R_")

/-- Adds reaction prefix to id (`_f_reaction_rev`). -/
def _f_reaction_rev (sid : Str) : Str := str "R_" ++ sid

/-- The `f_replace` dictionary of replacement functions: each entry is
optional, mirroring key presence in the Python dict. -/
structure FReplace where
  fGene : Option (Str → Str) := none
  fGeneRev : Option (Str → Str) := none
  fSpecie : Option (Str → Str) := none
  fSpecieRev : Option (Str → Str) := none
  fReaction : Option (Str → Str) := none
  fReactionRev : Option (Str → Str) := none

/-- The default `F_REPLACE` configuration. -/
def F_REPLACE : FReplace :=
  { fGene := some _f_gene
    fGeneRev := some _f_gene_rev
    fSpecie := some _f_specie
    fSpecieRev := some _f_specie_rev
    fReaction := some _f_reaction
    fReactionRev := some _f_reaction_rev }

/-- The empty replacement configuration (`f_replace={}`): all ids pass
through unchanged. -/
def emptyF : FReplace := {}

/-- Applies `if f_replace and KEY in f_replace: sid = f_replace[KEY](sid)`. -/
def applyF (f : Option (Str → Str)) (sid : Str) : Str :=
  match f with
  | some g => g sid
  | none => sid

-- ---------------------------------------------------------------------------
-- Notes codec (source lines 1095-1133).  `_parse_notes_dict` runs
-- `re.findall(r"<p>\s*(\w+\s*\w*)\s*:\s*([\w|\s]+)<", notes)`.  The regular
-- expression is embedded as a specialised backtracking matcher: quantifier
-- splits are enumerated greedy-first, exactly as the Python engine tries
-- them, and the first full match wins.
-- ---------------------------------------------------------------------------

/-- Character class `[\w|\s]` of the value group of the notes pattern. -/
def isValChar (c : Char) : Bool := isWordChar c || c = '|' || isSpaceChar c

/-- All splits of `s` matched by a greedy `cls*`, in backtracking priority
order (longest consumed piece first); each element is (consumed, rest). -/
def starSplits (p : Char → Bool) : Str → List (Str × Str)
  | [] => [([], [])]
  | c :: cs =>
    if p c then
      ((starSplits p cs).map (fun x => (c :: x.1, x.2))) ++ [([], c :: cs)]
    else [([], c :: cs)]

/-- All splits matched by a greedy `cls+`, in backtracking priority order. -/
def plusSplits (p : Char → Bool) : Str → List (Str × Str)
  | [] => []
  | c :: cs =>
    if p c then (starSplits p cs).map (fun x => (c :: x.1, x.2)) else []

/-- First success over a list of alternatives (backtracking search). -/
def pick (l : List α) (f : α → Option β) : Option β :=
  match l with
  | [] => none
  | x :: xs =>
    match f x with
    | some b => some b
    | none => pick xs f

/-- Tries to match `<p>\s*(\w+\s*\w*)\s*:\s*([\w|\s]+)<` at the start of
`s`.  On success returns (group 1, group 2, rest after the match); choices
are explored in the same order as the Python engine. -/
def entryAt (s : Str) : Option (Str × Str × Str) :=
  match s with
  | '<' :: 'p' :: '>' :: r0 =>
    pick (starSplits isSpaceChar r0) (fun x1 =>
      pick (plusSplits isWordChar x1.2) (fun xw1 =>
        pick (starSplits isSpaceChar xw1.2) (fun xs2 =>
          pick (starSplits isWordChar xs2.2) (fun xw2 =>
            pick (starSplits isSpaceChar xw2.2) (fun xs3 =>
              match xs3.2 with
              | ':' :: r6 =>
                pick (starSplits isSpaceChar r6) (fun xs4 =>
                  pick (plusSplits isValChar xs4.2) (fun xv =>
                    match xv.2 with
                    | '<' :: r9 =>
                      some (xw1.1 ++ xs2.1 ++ xw2.1, xv.1, r9)
                    | _ => none))
              | _ => none)))))
  | _ => none

/-- `re.findall` of the notes pattern: scans left to right, restarting
immediately after each (non-empty) match.  Every successful match consumes
at least one character, so the scan takes at most `length` steps; the
fuel argument makes that bound structural. -/
def findallNotesAux : Nat → Str → List (Str × Str)
  | 0, _ => []
  | _ + 1, [] => []
  | n + 1, c :: cs =>
    match entryAt (c :: cs) with
    | some (k, v, rest) => (k, v) :: findallNotesAux n rest
    | none => findallNotesAux n cs

/-- `re.findall(pattern, notes)` returning the list of (key, value) group
pairs in match order. -/
def findallNotes (s : Str) : List (Str × Str) := findallNotesAux s.length s

/-- Creates dictionary of COBRA notes (`_parse_notes_dict`), applied to the
notes string of an element: every pattern match contributes a
whitespace-stripped pair (later occurrences of a key overwrite earlier
ones, dict-style), and pairs whose value is empty are dropped. -/
def _parse_notes_dict (notes : Str) : Dict Str :=
  if notes ≠ [] then
    let ms := findallNotes notes
    let d := ms.foldl (fun d kv => dictInsert d (stripS kv.1) (stripS kv.2)) []
    d.filter (fun kv => kv.2.length > 0)
  else []

/-- Set SBase notes based on dictionary (`_sbase_notes_dict`): serialises a
non-empty mapping as one `<p>key: value</p>` paragraph per entry inside a
fixed wrapper, joined by newlines; an empty mapping is a no-op. -/
def _sbase_notes_dict (notesString : Str) (notes : Dict Str) : Str :=
  if notes ≠ [] then
    let tokens := [str "<html xmlns = " ++ ['"'] ++ str "http://www.w3.org/1999/xhtml" ++ ['"'] ++ str " >"]
      ++ notes.map (fun kv => str "<p>" ++ kv.1 ++ str ": " ++ kv.2 ++ str "</p>")
      ++ [str "</html>"]
    joinSep ['\n'] tokens
  else notesString

-- ---------------------------------------------------------------------------
-- Annotation codec (source lines 1155-1304).  libsbml CVTerms are
-- modelled as records carrying the qualifier type, the qualifier constant
-- and the attached resource URIs; the biomodel qualifier constants are an
-- abstract enumeration.
-- ---------------------------------------------------------------------------

/-- libsbml qualifier type (`BIOLOGICAL_QUALIFIER` / `MODEL_QUALIFIER`). -/
inductive QualifierKind where
  | biological
  | modelQualifier
deriving DecidableEq, Repr

/-- The biomodel qualifier constants used by `QUALIFIER_TYPES`. -/
inductive BQ where
  | BQB_IS
  | BQB_HAS_PART
  | BQB_IS_PART_OF
  | BQB_IS_VERSION_OF
  | BQB_HAS_VERSION
  | BQB_IS_HOMOLOG_TO
  | BQB_IS_DESCRIBED_BY
  | BQB_IS_ENCODED_BY
  | BQB_ENCODES
  | BQB_OCCURS_IN
  | BQB_HAS_PROPERTY
  | BQB_IS_PROPERTY_OF
  | BQB_HAS_TAXON
  | BQB_UNKNOWN
  | BQM_IS
  | BQM_IS_DESCRIBED_BY
  | BQM_IS_DERIVED_FROM
  | BQM_IS_INSTANCE_OF
  | BQM_HAS_INSTANCE
  | BQM_UNKNOWN
deriving DecidableEq, Repr

/-- A libsbml CVTerm: one qualifier plus its attached resource URIs. -/
structure CVTerm where
  qualifierType : QualifierKind
  qualifier : BQ
  resources : List Str
deriving DecidableEq, Repr

/-- The `QUALIFIER_TYPES` table (source lines 1157-1178). -/
def QUALIFIER_TYPES : Dict BQ :=
  [(str "is", .BQB_IS),
   (str "hasPart", .BQB_HAS_PART),
   (str "isPartOf", .BQB_IS_PART_OF),
   (str "isVersionOf", .BQB_IS_VERSION_OF),
   (str "hasVersion", .BQB_HAS_VERSION),
   (str "isHomologTo", .BQB_IS_HOMOLOG_TO),
   (str "isDescribedBy", .BQB_IS_DESCRIBED_BY),
   (str "isEncodedBy", .BQB_IS_ENCODED_BY),
   (str "encodes", .BQB_ENCODES),
   (str "occursIn", .BQB_OCCURS_IN),
   (str "hasProperty", .BQB_HAS_PROPERTY),
   (str "isPropertyOf", .BQB_IS_PROPERTY_OF),
   (str "hasTaxon", .BQB_HAS_TAXON),
   (str "unknown", .BQB_UNKNOWN),
   (str "bqm_is", .BQM_IS),
   (str "bqm_isDescribedBy", .BQM_IS_DESCRIBED_BY),
   (str "bqm_isDerivedFrom", .BQM_IS_DERIVED_FROM),
   (str "bqm_isInstanceOf", .BQM_IS_INSTANCE_OF),
   (str "bqm_hasInstance", .BQM_HAS_INSTANCE),
   (str "bqm_unknown", .BQM_UNKNOWN)]

def URL_IDENTIFIERS_PREFIX : Str := str "https://identifiers.org"

/-- One item of a cobra annotation value: either a bare entity id or a
(qualifier, entity) pair. -/
inductive AnnItem where
  | bare (s : Str)
  | pair (q e : Str)
deriving DecidableEq, Repr

/-- A cobra annotation value: a single bare string or a list of items. -/
inductive AnnValue where
  | one (s : Str)
  | many (xs : List AnnItem)
deriving DecidableEq, Repr

/-- A cobra annotation dictionary (provider key to value). -/
abbrev Annotation := Dict AnnValue

/-- Common SBase state shared by all modelled document elements: meta id,
structural SBO term, CVTerms and the raw notes string. -/
structure SBaseData where
  metaId : Str := []
  sboTerm : Option Str := none
  cvterms : List CVTerm := []
  notesString : Str := []
deriving DecidableEq, Repr

/-- Accumulates one (provider, identifier) pair into the annotation being
parsed (source lines 1222-1228): the first occurrence of a provider is a
bare string; later occurrences promote the entry to a list and append. -/
def annAccumulate (ann : Annotation) (provider identifier : Str) : Annotation :=
  match dictLookup ann provider with
  | none => ann ++ [(provider, .one identifier)]
  | some (.one s) => dictInsert ann provider (.many [.bare s, .bare identifier])
  | some (.many xs) => dictInsert ann provider (.many (xs ++ [.bare identifier]))

/-- Parses cobra annotations from an SBase (`_parse_annotations`): the
structural SBO term is inserted under key `sbo`; each CVTerm resource of
shape `http(s)://identifiers.org/<provider>/<id>` contributes its pair
(qualifiers are discarded); any other URI is skipped with a warning. -/
def _parse_annotations (sb : SBaseData) : Annotation :=
  let ann0 : Annotation :=
    match sb.sboTerm with
    | some t => [(str "sbo", .one t)]
    | none => []
  sb.cvterms.foldl (fun ann cv =>
    cv.resources.foldl (fun ann uri =>
      match splitOnChar '/' uri with
      | [_t0, _t1, t2, t3, t4] =>
        if t2 = str "identifiers.org" then annAccumulate ann t3 t4 else ann
      | _ => ann) ann) ann0

/-- Normalises one annotation value to a list of (qualifier, entity) pairs
(source lines 1251-1259): a bare string becomes `("is", value)`, and bare
items inside a list are promoted the same way. -/
def normalizeAnnValue : AnnValue → List (Str × Str)
  | .one s => [(str "is", s)]
  | .many xs => xs.map (fun it =>
      match it with
      | .bare s => (str "is", s)
      | .pair q e => (q, e))

/-- Emits the CVTerms of one provider entry (source lines 1280-1304). -/
def emitCVTerms (provider : Str) (pairs : List (Str × Str)) : List CVTerm :=
  pairs.map (fun qe =>
    let qualifier := (dictLookup QUALIFIER_TYPES qe.1).getD .BQB_IS
    let qtype : QualifierKind :=
      if (str "bqm_").isPrefixOf qe.1 then .modelQualifier else .biological
    { qualifierType := qtype
      qualifier := qualifier
      resources := [URL_IDENTIFIERS_PREFIX ++ [ '/' ] ++ provider ++ [ '/' ] ++ qe.2] })

/-- Set SBase annotations based on cobra annotations (`_sbase_annotations`).
`elementId` is the SBML id of the element at the time of the call (used for
the synthetic `meta_` meta id).  The reserved `SBO`/`sbo` provider installs
the first entity as the structural SBO term (an empty list there raises
`IndexError`, modelled as `Except.error`); every other provider appends one
CVTerm per (qualifier, entity) pair. -/
def _sbase_annotations (elementId : Str) (sb : SBaseData) (annot : Annotation) :
    Except Str SBaseData :=
  if annot = [] then .ok sb
  else
    let annot_data : List (Str × List (Str × Str)) :=
      annot.map (fun kv => (kv.1, normalizeAnnValue kv.2))
    let sb1 := { sb with metaId := str "meta_" ++ elementId }
    annot_data.foldl (fun acc entry =>
      match acc with
      | .error e => .error e
      | .ok cur =>
        if entry.1 = str "SBO" ∨ entry.1 = str "sbo" then
          match entry.2 with
          | [] => .error (str "IndexError: list index out of range")
          | qe :: _ => .ok { cur with sboTerm := some qe.2 }
        else
          .ok { cur with cvterms := cur.cvterms ++ emitCVTerms entry.1 entry.2 })
      (.ok sb1)

-- ---------------------------------------------------------------------------
-- Gene-association trees (libsbml FbcAssociation) and their rendering
-- (source lines 430-446), plus a model of libsbml's
-- `GeneProductAssociation.setAssociation` infix-string parsing.
-- ---------------------------------------------------------------------------

/-- An FBC association tree: OR/AND combinators over gene-product
references. -/
inductive Association where
  | fbcOr (cs : List Association)
  | fbcAnd (cs : List Association)
  | geneProductRef (gid : Str)
deriving Repr

mutual

/-- Recursively convert gpr association to a gpr string
(`process_association`): OR/AND children are joined by
`or`/`and` inside `( ... )`, and a leaf is the (possibly
identifier-transformed) gene id. -/
def process_association (fGene : Option (Str → Str)) : Association → Str
  | .fbcOr cs =>
    str "( " ++ joinSep (str " or ") (processAssociationList fGene cs) ++ str " )"
  | .fbcAnd cs =>
    str "( " ++ joinSep (str " and ") (processAssociationList fGene cs) ++ str " )"
  | .geneProductRef gid => applyF fGene gid

def processAssociationList (fGene : Option (Str → Str)) : List Association → List Str
  | [] => []
  | a :: rest => process_association fGene a :: processAssociationList fGene rest

end

/-- Tokenizes an infix association string: parentheses become their own
tokens, other maximal non-space runs are word tokens. -/
def tokenizeAssoc (s : Str) : List Str :=
  (splitOnChar ' ' (s.flatMap (fun c =>
    if c = '(' then str " ( " else if c = ')' then str " ) " else [c]))).filter
    (fun t => t ≠ [])

mutual

/-- Recursive-descent parse of an infix association (external libsbml
behaviour behind `setAssociation`): `or` over `and` over atoms, with
parenthesised sub-expressions; fuel bounds the recursion depth. -/
def parseAssocOr (fuel : Nat) (ts : List Str) : Option (Association × List Str) :=
  match fuel with
  | 0 => none
  | fuel + 1 =>
    match parseAssocAnd fuel ts with
    | none => none
    | some (a, rest) => parseAssocOrTail fuel [a] rest

def parseAssocOrTail (fuel : Nat) (acc : List Association) (ts : List Str) :
    Option (Association × List Str) :=
  match fuel with
  | 0 => none
  | fuel + 1 =>
    match ts with
    | t :: rest =>
      if t = str "or" then
        match parseAssocAnd fuel rest with
        | none => none
        | some (a, rest2) => parseAssocOrTail fuel (acc ++ [a]) rest2
      else
        some (match acc with | [x] => x | xs => .fbcOr xs, ts)
    | [] => some (match acc with | [x] => x | xs => .fbcOr xs, ts)

def parseAssocAnd (fuel : Nat) (ts : List Str) : Option (Association × List Str) :=
  match fuel with
  | 0 => none
  | fuel + 1 =>
    match parseAssocAtom fuel ts with
    | none => none
    | some (a, rest) => parseAssocAndTail fuel [a] rest

def parseAssocAndTail (fuel : Nat) (acc : List Association) (ts : List Str) :
    Option (Association × List Str) :=
  match fuel with
  | 0 => none
  | fuel + 1 =>
    match ts with
    | t :: rest =>
      if t = str "and" then
        match parseAssocAtom fuel rest with
        | none => none
        | some (a, rest2) => parseAssocAndTail fuel (acc ++ [a]) rest2
      else
        some (match acc with | [x] => x | xs => .fbcAnd xs, ts)
    | [] => some (match acc with | [x] => x | xs => .fbcAnd xs, ts)

def parseAssocAtom (fuel : Nat) (ts : List Str) : Option (Association × List Str) :=
  match fuel with
  | 0 => none
  | fuel + 1 =>
    match ts with
    | [] => none
    | t :: rest =>
      if t = str "(" then
        match parseAssocOr fuel rest with
        | some (a, (u :: rest2)) => if u = str ")" then some (a, rest2) else none
        | _ => none
      else if t = str ")" ∨ t = str "or" ∨ t = str "and" then none
      else some (.geneProductRef t, rest)

end

/-- Model of `gpa.setAssociation(gpr)`: parses the infix string into an
association tree; `none` models a rejected string. -/
def setAssociation (s : Str) : Option Association :=
  let ts := tokenizeAssoc s
  match parseAssocOr (2 * ts.length + 2) ts with
  | some (a, []) => some a
  | _ => none

-- ---------------------------------------------------------------------------
-- The SBML document model: the subset of the libsbml object tree that the
-- source reads and writes.  Optional attributes are `Option`; unset
-- attributes read through `_check_required` are modelled as `none`.
-- ---------------------------------------------------------------------------

/-- An SBML parameter (value, constant flag, structural SBO term, units). -/
structure SParameter where
  id : Str
  value : Rat
  constant : Bool
  sbo : Option Str := none
  units : Option Str := none
deriving DecidableEq, Repr

/-- An SBML compartment. -/
structure SCompartment where
  id : Str
  name : Str
  constant : Bool := true
deriving DecidableEq, Repr

/-- An SBML species with its FBC plugin fields.  `fbcCharge`/`fbcFormula`
are the FBC extension attributes, `coreCharge` the deprecated core-level
charge attribute (`isSetCharge`). -/
structure SSpecies where
  id : Str
  name : Str := []
  compartment : Str := []
  constant : Bool := false
  boundaryCondition : Bool := false
  hasOnlySubstanceUnits : Bool := false
  fbcCharge : Option Int := none
  fbcFormula : Option Str := none
  coreCharge : Option Int := none
  sbase : SBaseData := {}
deriving DecidableEq, Repr

/-- A species reference within a reaction. -/
structure SpeciesRef where
  species : Str
  stoichiometry : Option Rat
  constant : Bool := true
deriving DecidableEq, Repr

/-- A kinetic law, reduced to its local parameters (the only part read). -/
structure SKineticLaw where
  parameters : Dict Rat
deriving DecidableEq, Repr

/-- The FBC plugin data of a reaction: flux-bound parameter references and
the optional gene-product association element (whose own association may
be unset). -/
structure SReactionFbc where
  lowerFluxBound : Option Str := none
  upperFluxBound : Option Str := none
  gpa : Option (Option Association) := none
deriving Repr

/-- An SBML reaction. -/
structure SReaction where
  id : Str
  name : Str := []
  reversible : Bool := false
  fast : Bool := false
  reactants : List SpeciesRef := []
  products : List SpeciesRef := []
  fbc : Option SReactionFbc := none
  kineticLaw : Option SKineticLaw := none
  sbase : SBaseData := {}
deriving Repr

/-- An FBC gene product. -/
structure SGeneProduct where
  id : Str
  name : Str := []
  label : Str := []
  sbase : SBaseData := {}
deriving DecidableEq, Repr

/-- One flux objective of an FBC objective. -/
structure FluxObjective where
  reaction : Str
  coefficient : Rat
deriving DecidableEq, Repr

/-- An FBC objective. -/
structure SObjective where
  id : Str
  objType : Str
  fluxObjectives : List FluxObjective := []
deriving DecidableEq, Repr

/-- The FBC model plugin. -/
structure FbcModelPlugin where
  strict : Bool := false
  geneProducts : List SGeneProduct := []
  objectives : List SObjective := []
  activeObjective : Str := []
deriving DecidableEq, Repr

/-- A member of a groups-package group. -/
structure SMember where
  idRef : Option Str := none
  metaIdRef : Option Str := none
  name : Option Str := none
deriving DecidableEq, Repr

/-- A groups-package group (`kind = none` models `isSetKind() == False`). -/
structure SGroup where
  id : Str
  name : Str := []
  kind : Option Str := none
  members : List SMember := []
  sbase : SBaseData := {}
deriving DecidableEq, Repr

/-- The groups model plugin. -/
structure GroupsModelPlugin where
  groups : List SGroup := []
deriving DecidableEq, Repr

/-- A unit inside a unit definition. -/
structure SUnit where
  kind : Str
  scale : Int
  multiplier : Rat
  exponent : Int
deriving DecidableEq, Repr

/-- A unit definition. -/
structure SUnitDef where
  id : Str
  units : List SUnit := []
deriving DecidableEq, Repr

/-- The flux unit definition written when `units=True`
(`UNITS_FLUX`, source lines 75-83). -/
def UNITS_FLUX : SUnitDef :=
  { id := str "mmol_per_gDW_per_hr"
    units :=
      [{ kind := str "mole", scale := -3, multiplier := 1, exponent := 1 },
       { kind := str "gram", scale := 0, multiplier := 1, exponent := -1 },
       { kind := str "second", scale := 0, multiplier := 3600, exponent := -1 }] }

/-- An SBML model element. -/
structure SModel where
  id : Str := []
  name : Str := []
  compartments : List SCompartment := []
  species : List SSpecies := []
  parameters : List SParameter := []
  reactions : List SReaction := []
  fbc : Option FbcModelPlugin := none
  groups : Option GroupsModelPlugin := none
  unitDefs : List SUnitDef := []
  sbase : SBaseData := {}
deriving Repr

/-- An SBML document.  `fbcPackageVersion` is the document-level package
version consulted for the FBC-v1 conversion branch. -/
structure SDoc where
  model : Option SModel := none
  fbcPackageVersion : Option Nat := none
  sbase : SBaseData := {}
deriving Repr

-- ---------------------------------------------------------------------------
-- The cobra in-memory model.  The container classes live outside this
-- module; per the specification they are ordered id-indexed collections
-- with id-based lookup, modelled here as plain lists and dictionaries.
-- ---------------------------------------------------------------------------

/-- Modelled from the spec: a cobra Metabolite (id, name, compartment-id,
optional integer charge, optional formula, notes, annotation). -/
structure CMetabolite where
  id : Str
  name : Str := []
  compartment : Str := []
  charge : Option Int := none
  formula : Option Str := none
  notes : Dict Str := []
  annot : Annotation := []
deriving DecidableEq, Repr

/-- Modelled from the spec: a cobra Gene (id, name, notes, annotation). -/
structure CGene where
  id : Str
  name : Str := []
  notes : Dict Str := []
  annot : Annotation := []
deriving DecidableEq, Repr

/-- Modelled from the spec: a cobra Reaction.  The stoichiometry maps
metabolite ids (unique within the owning model) to signed coefficients,
in insertion order. -/
structure CReaction where
  id : Str
  name : Str := []
  lower_bound : Rat := LOWER_BOUND
  upper_bound : Rat := UPPER_BOUND
  metabolites : Dict Rat := []
  gene_reaction_rule : Str := []
  notes : Dict Str := []
  annot : Annotation := []
deriving DecidableEq, Repr

/-- A group member: a closed tagged union over the three member kinds,
carrying the member's id and display name. -/
inductive CMember where
  | metabolite (id name : Str)
  | reaction (id name : Str)
  | gene (id name : Str)
deriving DecidableEq, Repr

/-- Modelled from the spec: a cobra Group (id, name, free-text kind,
ordered members, notes, annotation). -/
structure CGroup where
  id : Str
  name : Str := []
  kind : Str := []
  members : List CMember := []
  notes : Dict Str := []
  annot : Annotation := []
deriving DecidableEq, Repr

/-- Objective direction (`model.objective.direction`): `max` or `min`. -/
inductive ObjDir where
  | max
  | min
deriving DecidableEq, Repr

/-- Provenance metadata stored by the reader in `model._sbml` (reduced to
the parts the writer consumes: document-level notes and annotation). -/
structure MetaInfo where
  notesD : Dict Str := []
  annot : Annotation := []
deriving DecidableEq, Repr

/-- Modelled from the spec: a cobra Model.  The solver-facing objective is
a direction plus a reaction-id-to-coefficient mapping. -/
structure CModel where
  id : Str := []
  name : Str := []
  compartments : Dict Str := []
  metabolites : List CMetabolite := []
  genes : List CGene := []
  reactions : List CReaction := []
  groups : List CGroup := []
  objectiveDirection : ObjDir := .max
  objectiveCoefficients : Dict Rat := []
  notes : Dict Str := []
  annot : Annotation := []
  sbmlMeta : Option MetaInfo := none
deriving DecidableEq, Repr

/-- Modelled from the spec: `cobra.util.solver.set_objective` installs a
reaction-to-coefficient mapping as the model's linear objective. -/
def set_objective (m : CModel) (coefficients : Dict Rat) : CModel :=
  { m with objectiveCoefficients := coefficients }

/-- Modelled from the spec: `linear_reaction_coefficients` returns the
reactions with a non-zero coefficient in the current linear objective. -/
def linear_reaction_coefficients (m : CModel) : Dict Rat :=
  m.objectiveCoefficients.filter (fun kv => kv.2 ≠ 0)

/-- Modelled from the spec: `reaction.objective_coefficient` is the
reaction's coefficient in the active objective, `0` if not selected. -/
def objective_coefficient (m : CModel) (rid : Str) : Rat :=
  (dictLookup m.objectiveCoefficients rid).getD 0

-- ---------------------------------------------------------------------------
-- Write SBML (`_model_to_sbml`, source lines 748-1035).
-- ---------------------------------------------------------------------------

/-- Monadic map over `Except`, stopping at the first error. -/
def exMapM (f : α → Except ε β) : List α → Except ε (List β)
  | [] => .ok []
  | x :: xs =>
    match f x with
    | .error e => .error e
    | .ok y =>
      match exMapM f xs with
      | .error e => .error e
      | .ok ys => .ok (y :: ys)

/-- Python `min(list)` / `max(list)` on a non-empty list (the default is
never consulted by the callers, which guard on non-emptiness). -/
def listMin (l : List Rat) (dflt : Rat) : Rat :=
  match l with
  | [] => dflt
  | x :: xs => xs.foldl Min.min x

def listMax (l : List Rat) (dflt : Rat) : Rat :=
  match l with
  | [] => dflt
  | x :: xs => xs.foldl Max.max x

/-- Create parameter in SBML model (`_create_parameter`): appends one
parameter; the units reference is written only when the `units` flag is
truthy. -/
def _create_parameter (params : List SParameter) (pid : Str) (value : Rat)
    (sbo : Option Str) (constant : Bool) (units : Bool) (fluxUdefId : Option Str) :
    List SParameter :=
  params ++ [{ id := pid, value := value, constant := constant, sbo := sbo,
               units := if units then fluxUdefId else none }]

/-- The `bound_type` argument of `_create_bound`. -/
inductive BoundKind where
  | lower_bound
  | upper_bound
deriving DecidableEq, Repr

/-- The attribute name, used both for `getattr` and for fresh ids. -/
def BoundKind.attrName : BoundKind → Str
  | .lower_bound => str "lower_bound"
  | .upper_bound => str "upper_bound"

/-- `getattr(reaction, bound_type)`. -/
def boundAttr (rxn : CReaction) : BoundKind → Rat
  | .lower_bound => rxn.lower_bound
  | .upper_bound => rxn.upper_bound

/-- Creates bound in model for given reaction (`_create_bound`): returns
the id of the bound parameter and the updated parameter list.  The value
is compared, in order, against the configured default lower bound, zero
and the configured default upper bound; any other value materialises one
fresh constant parameter `<reaction-id>_<bound_type>` tagged with the
`SBO_FLUX_BOUND` term. -/
def _create_bound (params : List SParameter) (rxn : CReaction) (bt : BoundKind)
    (f : FReplace) (units : Bool) (fluxUdefId : Option Str) : Str × List SParameter :=
  let value : Rat := boundAttr rxn bt
  if value = LOWER_BOUND then (LOWER_BOUND_ID, params)
  else if value = 0 then (ZERO_BOUND_ID, params)
  else if value = UPPER_BOUND then (UPPER_BOUND_ID, params)
  else
    let rid := applyF f.fReactionRev rxn.id
    let pid := rid ++ [ '_' ] ++ bt.attrName
    (pid, _create_parameter params pid value (some SBO_FLUX_BOUND) true units fluxUdefId)

/-- Writes one species element (source lines 846-864): id rewritten by the
codec, `constant=True`, `boundaryCondition=True`, charge/formula written
when present, annotations and notes installed. -/
def writeSpecies (f : FReplace) (met : CMetabolite) : Except Str SSpecies :=
  let mid := applyF f.fSpecieRev met.id
  match _sbase_annotations mid {} met.annot with
  | .error e => .error e
  | .ok sb1 =>
    .ok { id := mid
          name := met.name
          compartment := met.compartment
          constant := true
          boundaryCondition := true
          hasOnlySubstanceUnits := false
          fbcCharge := met.charge
          fbcFormula := met.formula
          sbase := { sb1 with notesString := _sbase_notes_dict sb1.notesString met.notes } }

/-- Writes one gene product (source lines 867-880). -/
def writeGeneProduct (f : FReplace) (gene : CGene) : Except Str SGeneProduct :=
  let gid := applyF f.fGeneRev gene.id
  let gname := if gene.name.length = 0 then gid else gene.name
  match _sbase_annotations gid {} gene.annot with
  | .error e => .error e
  | .ok sb1 =>
    .ok { id := gid
          name := gname
          label := gid
          sbase := { sb1 with notesString := _sbase_notes_dict sb1.notesString gene.notes } }

/-- The reserved tokens skipped by the write-side gene-id rewriting. -/
def gprReserved (t : Str) : Bool :=
  t = str "and" ∨ t = str "or" ∨ t = str "(" ∨ t = str ")"

/-- State threaded through the writer's reaction loop: the accumulated
parameter list, reaction elements and flux objectives. -/
structure WState where
  params : List SParameter := []
  rxns : List SReaction := []
  fluxObjs : List FluxObjective := []
deriving Repr

/-- Writes one reaction element (source lines 890-945): id rewriting,
reversibility from the lower bound, stoichiometry split into reactants
and products, bound resolution through `_create_bound`, gene-association
installation, and the flux objective for a non-zero coefficient.  When
`units=False` the local `flux_udef` was never assigned and the bound call
raises `NameError`. -/
def writeReaction (f : FReplace) (units : Bool) (fluxUdef : Option SUnitDef)
    (coeffs : Dict Rat) (objCoeffs : Dict Rat) (st : WState) (rxn : CReaction) :
    Except Str WState :=
  let rid := applyF f.fReactionRev rxn.id
  match _sbase_annotations rid {} rxn.annot with
  | .error e => .error e
  | .ok sb1 =>
    let sb2 := { sb1 with notesString := _sbase_notes_dict sb1.notesString rxn.notes }
    let rp : List SpeciesRef × List SpeciesRef :=
      rxn.metabolites.foldl (fun acc kv =>
        let sid := applyF f.fSpecieRev kv.1
        if kv.2 < 0 then
          (acc.1 ++ [{ species := sid, stoichiometry := some (-kv.2), constant := true }], acc.2)
        else
          (acc.1, acc.2 ++ [{ species := sid, stoichiometry := some kv.2, constant := true }]))
        ([], [])
    match fluxUdef, units with
    | none, _ => .error (str "NameError: name flux_udef is not defined")
    | some u, units =>
      let lb := _create_bound st.params rxn .lower_bound f units (some u.id)
      let ub := _create_bound lb.2 rxn .upper_bound f units (some u.id)
      let gpa : Option (Option Association) :=
        if rxn.gene_reaction_rule.length > 0 then
          let gpr :=
            match f.fGeneRev with
            | some frev =>
              let tokens := splitOnChar ' ' rxn.gene_reaction_rule
              joinSep (str " ")
                (tokens.map (fun t => if gprReserved t then t else frev t))
            | none => rxn.gene_reaction_rule
          some (setAssociation gpr)
        else none
      let fluxObjs :=
        if (dictLookup coeffs rxn.id).getD 0 ≠ 0 then
          st.fluxObjs ++ [{ reaction := rid,
                            coefficient := (dictLookup objCoeffs rxn.id).getD 0 }]
        else st.fluxObjs
      .ok { params := ub.2
            rxns := st.rxns ++
              [{ id := rid
                 name := rxn.name
                 reversible := decide (rxn.lower_bound < 0)
                 fast := false
                 reactants := rp.1
                 products := rp.2
                 fbc := some { lowerFluxBound := some lb.1, upperFluxBound := some ub.1,
                               gpa := gpa }
                 kineticLaw := none
                 sbase := sb2 }]
            fluxObjs := fluxObjs }

/-- The writer's reaction loop. -/
def writeReactions (f : FReplace) (units : Bool) (fluxUdef : Option SUnitDef)
    (coeffs : Dict Rat) (objCoeffs : Dict Rat) :
    List CReaction → WState → Except Str WState
  | [], st => .ok st
  | r :: rs, st =>
    match writeReaction f units fluxUdef coeffs objCoeffs st r with
    | .error e => .error e
    | .ok st2 => writeReactions f units fluxUdef coeffs objCoeffs rs st2

/-- Writes one group element (source lines 954-981): notes, then
annotations, then one member per group member with the kind-specific id
rewriting; a member name is written only when non-empty. -/
def writeGroup (f : FReplace) (g : CGroup) : Except Str SGroup :=
  let sb0 : SBaseData := { notesString := _sbase_notes_dict [] g.notes }
  match _sbase_annotations g.id sb0 g.annot with
  | .error e => .error e
  | .ok sb1 =>
    let members := g.members.map (fun mem =>
      let idName : Str × Str :=
        match mem with
        | .metabolite mid mname => (applyF f.fSpecieRev mid, mname)
        | .reaction mid mname => (applyF f.fReactionRev mid, mname)
        | .gene mid mname => (applyF f.fGeneRev mid, mname)
      { idRef := some idName.1
        metaIdRef := none
        name := if idName.2.length > 0 then some idName.2 else none })
    .ok { id := g.id
          name := g.name
          kind := some g.kind
          members := members
          sbase := sb1 }

/-- The `min_value` computed by the writer (source lines 818-823): the
least reaction lower bound, or the configured default when the model has
no reactions. -/
def writerMinValue (m : CModel) : Rat :=
  if m.reactions.length > 0 then
    listMin (m.reactions.map (fun r => r.lower_bound)) LOWER_BOUND
  else LOWER_BOUND

/-- The `max_value` computed by the writer (source lines 818-823). -/
def writerMaxValue (m : CModel) : Rat :=
  if m.reactions.length > 0 then
    listMax (m.reactions.map (fun r => r.upper_bound)) UPPER_BOUND
  else UPPER_BOUND

/-- The three shared bound parameters created by the writer (source lines
825-830). -/
def writerParams0 (m : CModel) : List SParameter :=
  _create_parameter
    (_create_parameter
      (_create_parameter [] LOWER_BOUND_ID (writerMinValue m) (some SBO_DEFAULT_FLUX_BOUND)
        true false none)
      UPPER_BOUND_ID (writerMaxValue m) (some SBO_DEFAULT_FLUX_BOUND) true false none)
    ZERO_BOUND_ID 0 (some SBO_DEFAULT_FLUX_BOUND) true false none

/-- The document-level SBase state produced by the writer: the FBA
framework SBO term, plus the provenance annotations and notes when the
model carries `_sbml` metadata (source lines 772, 783-803; the
`ModelHistory` constructed there is never attached to the model, so only
the document annotations and notes take effect). -/
def writeDocSbase (m : CModel) : Except Str SBaseData :=
  let docSbase0 : SBaseData := { sboTerm := some SBO_FBA_FRAMEWORK }
  match m.sbmlMeta with
  | some meta =>
    match _sbase_annotations [] docSbase0 meta.annot with
    | .error e => .error e
    | .ok s1 => .ok { s1 with notesString := _sbase_notes_dict s1.notesString meta.notesD }
  | none => .ok docSbase0

/-- The groups plugin written when the model has at least one group
(source lines 948-981). -/
def writeGroupsOpt (f : FReplace) (groups : List CGroup) :
    Except Str (Option GroupsModelPlugin) :=
  if groups.length > 0 then
    match exMapM (writeGroup f) groups with
    | .error e => .error e
    | .ok gs => .ok (some { groups := gs })
  else .ok none

/-- Convert Cobra model to SBMLDocument (`_model_to_sbml`): document and
FBC-v2 setup, provenance metadata, the flux unit definition, the three
shared bound parameters at the model-wide extremal values, compartments,
species, gene products, the single objective `obj`, reactions and
groups. -/
def _model_to_sbml (m : CModel) (f : FReplace) (units : Bool) : Except Str SDoc :=
  match writeDocSbase m with
  | .error e => .error e
  | .ok docSbase =>
    match exMapM (writeSpecies f) m.metabolites with
    | .error e => .error e
    | .ok species =>
      match exMapM (writeGeneProduct f) m.genes with
      | .error e => .error e
      | .ok geneProducts =>
        let objType :=
          match m.objectiveDirection with
          | .max => str "maximize"
          | .min => str "minimize"
        match writeReactions f units (if units then some UNITS_FLUX else none)
            (linear_reaction_coefficients m) m.objectiveCoefficients
            m.reactions { params := writerParams0 m } with
        | .error e => .error e
        | .ok st =>
          match writeGroupsOpt f m.groups with
          | .error e => .error e
          | .ok groupsP =>
            .ok { model := some
                    { id := m.id
                      name := m.name
                      compartments := m.compartments.map (fun kv =>
                        { id := kv.1, name := kv.2, constant := true })
                      species := species
                      parameters := st.params
                      reactions := st.rxns
                      fbc := some { strict := true
                                    geneProducts := geneProducts
                                    objectives := [{ id := str "obj", objType := objType,
                                                     fluxObjectives := st.fluxObjs }]
                                    activeObjective := str "obj" }
                      groups := groupsP
                      unitDefs := if units then [UNITS_FLUX] else [] }
                  fbcPackageVersion := some 2
                  sbase := docSbase }

-- ---------------------------------------------------------------------------
-- Read SBML (`_sbml_to_model`, source lines 236-701).  A `CobraSBMLError`
-- raised by the source is `RErr.cobraError`; any other Python exception
-- escaping the translation (AttributeError, KeyError, NameError,
-- ValueError) is `RErr.otherError`.
-- ---------------------------------------------------------------------------

/-- Error outcome of the reader. -/
inductive RErr where
  | cobraError (msg : Str)
  | otherError (msg : Str)
deriving DecidableEq, Repr

/-- Get required attribute from the SBase (`_check_required`): a missing
(unset) attribute raises `CobraSBMLError`. -/
def _check_required (value : Option α) (attrName : Str) : Except RErr α :=
  match value with
  | some v => .ok v
  | none => .error (.cobraError (str "required attribute " ++ attrName ++ str " not found"))

/-- The `number=float` conversion of the reader: always succeeds. -/
def floatNumber : Rat → Option Rat := fun v => some v

/-- `model.getParameter(pid)`. -/
def getParameter (m : SModel) (pid : Str) : Option SParameter :=
  m.parameters.find? (fun p => p.id = pid)

/-- The boundary-species set collected at source lines 376-381: the raw
(unreplaced) ids of all species whose boundary-condition flag is set. -/
def boundaryIds (species : List SSpecies) : List Str :=
  (species.filter (fun s => s.boundaryCondition)).map (fun s => s.id)

/-- Reads one species into a metabolite (source lines 340-383): charge and
formula come from the FBC plugin when the package is present, else from
the deprecated core charge attribute and the CHARGE/FORMULA notes (a
non-integer CHARGE note is ignored). -/
def readMetabolite (f : FReplace) (fbcOn : Bool) (s : SSpecies) : CMetabolite :=
  let sid := applyF f.fSpecie s.id
  let notes := _parse_notes_dict s.sbase.notesString
  let annot := _parse_annotations s.sbase
  let chargeFormula : Option Int × Option Str :=
    if fbcOn then (s.fbcCharge, s.fbcFormula)
    else
      let charge :=
        match s.coreCharge with
        | some c => some c
        | none =>
          match dictLookup notes (str "CHARGE") with
          | some v => parseIntS v
          | none => none
      let formula := dictLookup notes (str "FORMULA")
      (charge, formula)
  { id := sid
    name := s.name
    compartment := s.compartment
    charge := chargeFormula.1
    formula := chargeFormula.2
    notes := notes
    annot := annot }

/-- Reads one FBC gene product into a gene (source lines 389-400).  libsbml
`getName()` reads an unset name as the empty string, never `None`, so the
id fallback in the source does not fire. -/
def readGene (f : FReplace) (gp : SGeneProduct) : CGene :=
  let gid := applyF f.fGene gp.id
  { id := gid
    name := gp.name
    notes := _parse_notes_dict gp.sbase.notesString
    annot := _parse_annotations gp.sbase }

/-- The legacy gene synthesis from reaction notes when the document has no
FBC package (source lines 402-427): the association text is shredded by
substring-replacing parentheses and the `or`/`and` substrings with `;`,
split on `;`, stripped, and each id not yet present becomes a gene. -/
def genesFallback (f : FReplace) (rs : List SReaction) : List CGene :=
  rs.foldl (fun genes r =>
    let notes := _parse_notes_dict r.sbase.notesString
    let gpr :=
      match dictLookup notes (str "GENE ASSOCIATION") with
      | some v => v
      | none => (dictLookup notes (str "GENE_ASSOCIATION")).getD []
    if gpr.length > 0 then
      let g1 := replaceS (str "(") (str ";") gpr
      let g2 := replaceS (str ")") (str ";") g1
      let g3 := replaceS (str "or") (str ";") g2
      let g4 := replaceS (str "and") (str ";") g3
      let gids := (splitOnChar ';' g4).map stripS
      gids.foldl (fun genes gid0 =>
        let gid := applyF f.fGene gid0
        if genes.any (fun g => g.id = gid) then genes
        else genes ++ [{ id := gid, name := gid }]) genes
    else genes) []

/-- Resolves the flux bounds of one reaction (source lines 460-501): FBC
bound references take priority (a dangling reference raises
`AttributeError`, a non-constant parameter raises `CobraSBMLError`), then
the legacy kinetic-law pair, else the fatal no-bounds error. -/
def readBounds (smodel : SModel) (r : SReaction) : Except RErr (Rat × Rat) :=
  match r.fbc with
  | some rfbc =>
    match _check_required rfbc.lowerFluxBound (str "lowerFluxBound") with
    | .error e => .error e
    | .ok lb_id =>
      match _check_required rfbc.upperFluxBound (str "upperFluxBound") with
      | .error e => .error e
      | .ok ub_id =>
        match getParameter smodel lb_id with
        | none =>
          .error (.otherError (str "AttributeError: NoneType object has no attribute getConstant"))
        | some p_lb =>
          if p_lb.constant then
            match getParameter smodel ub_id with
            | none =>
              .error (.otherError (str "AttributeError: NoneType object has no attribute getConstant"))
            | some p_ub =>
              if p_ub.constant then .ok (p_lb.value, p_ub.value)
              else .error (.cobraError (str "No constant bound for reaction " ++ r.id))
          else .error (.cobraError (str "No constant bound for reaction " ++ r.id))
  | none =>
    match r.kineticLaw with
    | some klaw =>
      match dictLookup klaw.parameters (str "LOWER_BOUND") with
      | some lb =>
        match dictLookup klaw.parameters (str "UPPER_BOUND") with
        | some ub => .ok (lb, ub)
        | none => .error (.cobraError (str "Missing flux bounds on reaction " ++ r.id))
      | none => .error (.cobraError (str "Missing flux bounds on reaction " ++ r.id))
    | none => .error (.cobraError (str "No flux bounds on reaction " ++ r.id))

/-- `stoichiometry[sid] += delta` with defaultdict semantics. -/
def dictAddTo (d : Dict Rat) (k : Str) (delta : Rat) : Dict Rat :=
  match dictLookup d k with
  | some v => dictInsert d k (v + delta)
  | none => d ++ [(k, delta)]

/-- Accumulates one species reference into the stoichiometry dictionary
(source lines 506-521); `neg` selects the reactant loop (`-=`) over the
product loop (`+=`). -/
def accumStoich (f : FReplace) (number : Rat → Option Rat) (neg : Bool)
    (d : Dict Rat) (sref : SpeciesRef) : Except RErr (Dict Rat) :=
  let sid := applyF f.fSpecie sref.species
  match _check_required sref.stoichiometry (str "stoichiometry") with
  | .error e => .error e
  | .ok v =>
    match number v with
    | some nv => .ok (dictAddTo d sid (if neg then -nv else nv))
    | none => .error (.otherError (str "ValueError: invalid stoichiometry"))

def accumStoichList (f : FReplace) (number : Rat → Option Rat) (neg : Bool) :
    List SpeciesRef → Dict Rat → Except RErr (Dict Rat)
  | [], d => .ok d
  | sref :: rest, d =>
    match accumStoich f number neg d sref with
    | .error e => .error e
    | .ok d2 => accumStoichList f number neg rest d2

/-- Resolves accumulated ids to model metabolites (source lines 524-541).
The boundary-species branch and the unknown-metabolite branch both format
a warning through `reaction.getId()`, which a cobra Reaction does not
have, so either branch raises `AttributeError`. -/
def resolveStoich (metIds boundary : List Str) :
    Dict Rat → Except RErr (Dict Rat)
  | [] => .ok []
  | (sid, v) :: rest =>
    if sid ∈ boundary then
      .error (.otherError (str "AttributeError: Reaction object has no attribute getId"))
    else if sid ∈ metIds then
      match resolveStoich metIds boundary rest with
      | .error e => .error e
      | .ok d => .ok ((sid, v) :: d)
    else
      .error (.otherError (str "AttributeError: Reaction object has no attribute getId"))

/-- Reads the gene-association string of one reaction (source lines
544-564): rendered from the FBC association tree when present (an empty
association element raises `AttributeError`), else taken from the
GENE ASSOCIATION / GENE_ASSOCIATION note with token-wise id rewriting. -/
def readGpr (f : FReplace) (r : SReaction) (notes : Dict Str) : Except RErr Str :=
  match r.fbc with
  | some rfbc =>
    match rfbc.gpa with
    | some (some a) => .ok (process_association f.fGene a)
    | some none =>
      .error (.otherError (str "AttributeError: NoneType object has no attribute isFbcOr"))
    | none => .ok []
  | none =>
    let gpr :=
      match dictLookup notes (str "GENE ASSOCIATION") with
      | some v => v
      | none => (dictLookup notes (str "GENE_ASSOCIATION")).getD []
    if gpr.length > 0 then
      match f.fGene with
      | some fg => .ok (joinSep (str " ") ((splitOnChar ' ' gpr).map fg))
      | none => .ok gpr
    else .ok gpr

/-- The cosmetic outer-parenthesis strip (source lines 567-568). -/
def stripOuterParens (gpr : Str) : Str :=
  if (str "(").isPrefixOf gpr ∧ (str ")").isSuffixOf gpr then
    stripS (gpr.drop 1).dropLast
  else gpr

/-- Reads one reaction (source lines 450-570). -/
def readReaction (f : FReplace) (number : Rat → Option Rat) (smodel : SModel)
    (metIds boundary : List Str) (r : SReaction) : Except RErr CReaction :=
  let rid := applyF f.fReaction r.id
  let annot := _parse_annotations r.sbase
  let notes := _parse_notes_dict r.sbase.notesString
  match readBounds smodel r with
  | .error e => .error e
  | .ok bounds =>
    match accumStoichList f number true r.reactants [] with
    | .error e => .error e
    | .ok d1 =>
      match accumStoichList f number false r.products d1 with
      | .error e => .error e
      | .ok d2 =>
        match resolveStoich metIds boundary d2 with
        | .error e => .error e
        | .ok stoich =>
          match readGpr f r notes with
          | .error e => .error e
          | .ok gpr0 =>
            .ok { id := rid
                  name := r.name
                  lower_bound := bounds.1
                  upper_bound := bounds.2
                  metabolites := stoich
                  gene_reaction_rule := stripOuterParens gpr0
                  notes := notes
                  annot := annot }

/-- Reads the flux objectives of the active objective (source lines
590-604): an unresolved reaction id is fatal, a coefficient rejected by
the numeric conversion is skipped with a warning. -/
def readFluxObjectives (f : FReplace) (number : Rat → Option Rat) (rxnIds : List Str) :
    List FluxObjective → Dict Rat → Except RErr (Dict Rat)
  | [], coeffs => .ok coeffs
  | fo :: rest, coeffs =>
    let rid := applyF f.fReaction fo.reaction
    if rid ∈ rxnIds then
      let coeffs2 :=
        match number fo.coefficient with
        | some v => dictInsert coeffs rid v
        | none => coeffs
      readFluxObjectives f number rxnIds rest coeffs2
    else .error (.cobraError (str "Objective reaction " ++ rid ++ str " not found"))

/-- Reads the objective from the FBC plugin (source lines 577-606): an
empty objective list or no active objective falls back to an empty
maximising objective with a warning. -/
def readObjectiveFbc (f : FReplace) (number : Rat → Option Rat) (rxnIds : List Str)
    (fbc : FbcModelPlugin) : Except RErr (Dict Rat × ObjDir) :=
  if fbc.objectives.length = 0 then .ok ([], .max)
  else if fbc.activeObjective = [] then .ok ([], .max)
  else
    match fbc.objectives.find? (fun o => o.id = fbc.activeObjective) with
    | none => .error (.otherError (str "AttributeError: NoneType object has no attribute getType"))
    | some obj =>
      match dictLookup LONG_SHORT_DIRECTION obj.objType with
      | none => .error (.otherError (str "KeyError: " ++ obj.objType))
      | some dirS =>
        let dir := if dirS = str "min" then ObjDir.min else ObjDir.max
        match readFluxObjectives f number rxnIds obj.fluxObjectives [] with
        | .error e => .error e
        | .ok coeffs => .ok (coeffs, dir)

/-- Reads the legacy kinetic-law objective coefficients (source lines
608-633).  The source looks the parameter up on `r.getKineticLaw()`, where
`r` is the stale loop variable from the reactions loop — the LAST document
reaction — not on the reaction being examined. -/
def readObjectiveLegacy (f : FReplace) (number : Rat → Option Rat) (rxnIds : List Str)
    (rLast : Option SReaction) :
    List SReaction → Dict Rat → Except RErr (Dict Rat)
  | [], coeffs => .ok coeffs
  | reaction :: rest, coeffs =>
    if reaction.kineticLaw.isSome then
      match rLast with
      | none => .error (.otherError (str "NameError: name r is not defined"))
      | some rl =>
        match rl.kineticLaw with
        | none =>
          .error (.otherError (str "AttributeError: NoneType object has no attribute getParameter"))
        | some klaw =>
          match dictLookup klaw.parameters (str "OBJECTIVE_COEFFICIENT") with
          | some v =>
            let rid := applyF f.fReaction reaction.id
            if rid ∈ rxnIds then
              let coeffs2 :=
                match number v with
                | some nv => dictInsert coeffs rid nv
                | none => coeffs
              readObjectiveLegacy f number rxnIds rLast rest coeffs2
            else .error (.cobraError (str "Objective reaction " ++ rid ++ str " not found"))
          | none => readObjectiveLegacy f number rxnIds rLast rest coeffs
    else readObjectiveLegacy f number rxnIds rLast rest coeffs

/-- A document element found by `getElementBySId`/`getElementByMetaId`,
tagged with its type code. -/
inductive SElement where
  | species (s : SSpecies)
  | reaction (r : SReaction)
  | geneProduct (g : SGeneProduct)
  | parameter (p : SParameter)
  | compartment (c : SCompartment)

/-- `doc.getElementBySId(sid)`: searches the document for the element with
the given SBML id. -/
def getElementBySId (smodel : SModel) (sid : Str) : Option SElement :=
  let gpFound : Option SGeneProduct :=
    match smodel.fbc with
    | some fbc => fbc.geneProducts.find? (fun g => g.id = sid)
    | none => none
  match smodel.species.find? (fun s => s.id = sid) with
  | some s => some (.species s)
  | none =>
    match smodel.reactions.find? (fun r => r.id = sid) with
    | some r => some (.reaction r)
    | none =>
      match gpFound with
      | some g => some (.geneProduct g)
      | none =>
        match smodel.parameters.find? (fun p => p.id = sid) with
        | some p => some (.parameter p)
        | none =>
          match smodel.compartments.find? (fun c => c.id = sid) with
          | some c => some (.compartment c)
          | none => none

/-- `doc.getElementByMetaId(mid)`: searches the elements carrying meta
ids. -/
def getElementByMetaId (smodel : SModel) (mid : Str) : Option SElement :=
  let gpFound : Option SGeneProduct :=
    match smodel.fbc with
    | some fbc =>
      fbc.geneProducts.find? (fun g => g.sbase.metaId = mid ∧ g.sbase.metaId ≠ [])
    | none => none
  match smodel.species.find? (fun s => s.sbase.metaId = mid ∧ s.sbase.metaId ≠ []) with
  | some s => some (.species s)
  | none =>
    match smodel.reactions.find? (fun r => r.sbase.metaId = mid ∧ r.sbase.metaId ≠ []) with
    | some r => some (.reaction r)
    | none =>
      match gpFound with
      | some g => some (.geneProduct g)
      | none => none

/-- Resolves one found element into a group member (source lines 657-679):
species, reactions and gene products are looked up in the model
collections (a miss raises `KeyError`); any other type code is skipped
with a warning. -/
def resolveMember (f : FReplace) (cm : CModel) (el : SElement) :
    Except RErr (Option CMember) :=
  match el with
  | .species s =>
    let oid := applyF f.fSpecie s.id
    match cm.metabolites.find? (fun m => m.id = oid) with
    | some met => .ok (some (.metabolite met.id met.name))
    | none => .error (.otherError (str "KeyError: " ++ oid))
  | .reaction r =>
    let oid := applyF f.fReaction r.id
    match cm.reactions.find? (fun x => x.id = oid) with
    | some rx => .ok (some (.reaction rx.id rx.name))
    | none => .error (.otherError (str "KeyError: " ++ oid))
  | .geneProduct g =>
    let oid := applyF f.fGene g.id
    match cm.genes.find? (fun x => x.id = oid) with
    | some gn => .ok (some (.gene gn.id gn.name))
    | none => .error (.otherError (str "KeyError: " ++ oid))
  | _ => .ok none

/-- The member loop of one group (source lines 651-679).  The local `obj`
of the source survives loop iterations: a member with neither an idRef nor
a metaIdRef reuses the previously resolved element (`NameError` if there
is none yet); a failed lookup raises `AttributeError` on `getTypeCode`. -/
def readMembers (f : FReplace) (smodel : SModel) (cm : CModel) :
    List SMember → Option (Option SElement) →
    Except RErr (List CMember × Option (Option SElement))
  | [], st => .ok ([], st)
  | mem :: rest, st =>
    let st2 :=
      match mem.idRef with
      | some sid => some (getElementBySId smodel sid)
      | none =>
        match mem.metaIdRef with
        | some mid => some (getElementByMetaId smodel mid)
        | none => st
    match st2 with
    | none => .error (.otherError (str "NameError: name obj is not defined"))
    | some none =>
      .error (.otherError (str "AttributeError: NoneType object has no attribute getTypeCode"))
    | some (some el) =>
      match resolveMember f cm el with
      | .error e => .error e
      | .ok mopt =>
        match readMembers f smodel cm rest st2 with
        | .error e => .error e
        | .ok (ms, st3) =>
          .ok ((match mopt with | some mm => mm :: ms | none => ms), st3)

/-- The group loop (source lines 642-682); the stale `obj` state is
threaded across groups as well. -/
def readGroupsList (f : FReplace) (smodel : SModel) (cm : CModel) :
    List SGroup → Option (Option SElement) → Except RErr (List CGroup)
  | [], _ => .ok []
  | g :: gs, st =>
    match readMembers f smodel cm g.members st with
    | .error e => .error e
    | .ok (ms, st2) =>
      match readGroupsList f smodel cm gs st2 with
      | .error e => .error e
      | .ok rest =>
        .ok ({ id := g.id
               name := g.name
               kind := g.kind.getD []
               members := ms
               notes := _parse_notes_dict g.sbase.notesString
               annot := _parse_annotations g.sbase } :: rest)

/-- The deprecated per-reaction SUBSYSTEM fallback (source lines 684-697):
reactions sharing a subsystem note are grouped, in first-appearance order,
into a group of kind `collection` named by the subsystem text. -/
def subsystemGroups (cm : CModel) : List CGroup :=
  let d : List (Str × List (Str × Str)) :=
    cm.reactions.foldl (fun d r =>
      match dictLookup r.notes (str "SUBSYSTEM") with
      | some gname =>
        match dictLookup d gname with
        | some _ => d.map (fun kv => if kv.1 = gname then (kv.1, kv.2 ++ [(r.id, r.name)]) else kv)
        | none => d ++ [(gname, [(r.id, r.name)])]
      | none => d) []
  d.map (fun kv =>
    { id := kv.1
      name := kv.1
      kind := str "collection"
      members := kv.2.map (fun rn => CMember.reaction rn.1 rn.2) })

/-- Creates cobra model from SBMLDocument (`_sbml_to_model`).  The FBC-v1
to v2 document conversion is modelled as the identity on the abstract
tree (the structures above already describe the converted content). -/
def _sbml_to_model (doc : SDoc) (f : FReplace) (number : Rat → Option Rat) :
    Except RErr CModel :=
  match doc.model with
  | none => .error (.cobraError (str "No SBML model detected in file."))
  | some smodel =>
    let model_fbc := smodel.fbc
    let meta : MetaInfo :=
      { notesD := _parse_notes_dict doc.sbase.notesString
        annot := _parse_annotations doc.sbase }
    let compartments := smodel.compartments.foldl (fun d c => dictInsert d c.id c.name) []
    let boundary := boundaryIds smodel.species
    let fbcOn := model_fbc.isSome
    let metabolites := smodel.species.map (readMetabolite f fbcOn)
    let genes :=
      match model_fbc with
      | some fbc => fbc.geneProducts.map (readGene f)
      | none => genesFallback f smodel.reactions
    let metIds := metabolites.map (fun m => m.id)
    match exMapM (readReaction f number smodel metIds boundary) smodel.reactions with
    | .error e => .error e
    | .ok reactions =>
      let cm0 : CModel :=
        { id := smodel.id
          name := smodel.name
          compartments := compartments
          metabolites := metabolites
          genes := genes
          reactions := reactions
          notes := _parse_notes_dict smodel.sbase.notesString
          annot := _parse_annotations smodel.sbase
          sbmlMeta := some meta }
      let rxnIds := reactions.map (fun r => r.id)
      let objE : Except RErr (Dict Rat × ObjDir) :=
        match model_fbc with
        | some fbc => readObjectiveFbc f number rxnIds fbc
        | none =>
          match readObjectiveLegacy f number rxnIds smodel.reactions.getLast?
              smodel.reactions [] with
          | .error e => .error e
          | .ok coeffs => .ok (coeffs, .max)
      match objE with
      | .error e => .error e
      | .ok obj =>
        let cm1 := { set_objective cm0 obj.1 with objectiveDirection := obj.2 }
        let groupsE : Except RErr (List CGroup) :=
          match smodel.groups with
          | some gplugin => readGroupsList f smodel cm1 gplugin.groups none
          | none => .ok (subsystemGroups cm1)
        match groupsE with
        | .error e => .error e
        | .ok groups => .ok { cm1 with groups := groups }

-- ---------------------------------------------------------------------------
-- Validation (`validate_sbml_model`, source lines 1310-1403).  The
-- external libsbml consistency check is modelled by its outcome: the list
-- of logged errors, each carrying a severity.  The Python warnings
-- captured by `catch_warnings` come from the cobra container classes, not
-- from this module's logging, and are not modelled (the `warnings` bucket
-- stays empty).
-- ---------------------------------------------------------------------------

/-- Severity of one libsbml validation error. -/
inductive SbmlSeverity where
  | fatal
  | error
  | schemaError
  | warning
  | other
deriving DecidableEq, Repr

/-- One libsbml validation error (already formatted by `_error_string`). -/
structure LibsbmlError where
  severity : SbmlSeverity
  message : Str
deriving DecidableEq, Repr

/-- The error map returned by validation. -/
abbrev ErrorMap := List (Str × List Str)

/-- `errors[group].append(err_msg)`: appending under a missing key raises
`KeyError`. -/
def errAppend (em : ErrorMap) (k : Str) (msg : Str) : Except Str ErrorMap :=
  if em.any (fun kv => kv.1 = k) then
    .ok (em.map (fun kv => if kv.1 = k then (kv.1, kv.2 ++ [msg]) else kv))
  else .error (str "KeyError: " ++ k)

/-- `errors["validator"].extend(...)` on the always-present key. -/
def errExtendValidator (em : ErrorMap) (msgs : List Str) : ErrorMap :=
  em.map (fun kv => if kv.1 = str "validator" then (kv.1, kv.2 ++ msgs) else kv)

/-- The severity buckets of the libsbml pass (source lines 1374-1384).
The bucket for plain errors is keyed `SBML_ERROR`, which the error map
never pre-populates (it lists `SBML ERROR`, with a space, instead). -/
def severityKey : SbmlSeverity → Option Str
  | .fatal => some (str "SBML_FATAL")
  | .error => some (str "SBML_ERROR")
  | .schemaError => some (str "SBML_SCHEMA_ERROR")
  | .warning => some (str "SBML_WARNING")
  | .other => none

def foldLibsbmlErrors (em : ErrorMap) : List LibsbmlError → Except Str ErrorMap
  | [] => .ok em
  | e :: rest =>
    match severityKey e.severity with
    | some k =>
      match errAppend em k e.message with
      | .error ke => .error ke
      | .ok em2 => foldLibsbmlErrors em2 rest
    | none => foldLibsbmlErrors em rest

/-- Validate SBML model (`validate_sbml_model`), applied to the already
parsed document.  `checker` models the external
`check_metabolite_compartment_formula`; `libsbmlLog` models the errors
logged by the external consistency checks when `use_libsbml` is set.
Raised exceptions are `Except.error`. -/
def validate_sbml_model (doc : SDoc) (use_libsbml : Bool)
    (libsbmlLog : List LibsbmlError) (check_model : Bool)
    (checker : CModel → List Str) : Except Str (Option CModel × ErrorMap) :=
  let errors0 : ErrorMap :=
    [(str "validator", []), (str "warnings", []), (str "other", []),
     (str "SBML errors", [])] ++
    (if use_libsbml then
      [(str "SBML_FATAL", []), (str "SBML ERROR", []),
       (str "SBML_SCHEMA_ERROR", []), (str "SBML_WARNING", [])]
     else [])
  match doc.model with
  | none => .error (str "No SBML model detected in file.")
  | some _ =>
    let errors1E : Except Str ErrorMap :=
      if use_libsbml then foldLibsbmlErrors errors0 libsbmlLog else .ok errors0
    match errors1E with
    | .error e => .error e
    | .ok errors1 =>
      match _sbml_to_model doc emptyF floatNumber with
      | .error (.cobraError m) =>
        match errAppend errors1 (str "SBML errors") m with
        | .error ke => .error ke
        | .ok errors2 => .ok (none, errors2)
      | .error (.otherError m) =>
        match errAppend errors1 (str "other") m with
        | .error ke => .error ke
        | .ok errors2 => .ok (none, errors2)
      | .ok model =>
        let errors3 :=
          if check_model then errExtendValidator errors1 (checker model) else errors1
        .ok (some model, errors3)

-- ---------------------------------------------------------------------------
-- Concrete instances used by the claim theorems below.
-- ---------------------------------------------------------------------------

/-- A canonical model whose reactions use only plain finite bounds: `r1`
sits exactly at the configured defaults, `r2` has a custom lower bound
below the configured default. -/
def c1Model : CModel :=
  { reactions := [{ id := str "r1", lower_bound := -1000, upper_bound := 1000 },
                  { id := str "r2", lower_bound := -2000, upper_bound := 1000 }] }

/-- A model with one reaction at custom bounds `[-5, 5]`. -/
def c2Model : CModel :=
  { reactions := [{ id := str "r", lower_bound := -5, upper_bound := 5 }] }

/-- The written document of `c2Model` and its model element. -/
def c2Doc : SDoc :=
  match _model_to_sbml c2Model F_REPLACE true with
  | .ok d => d
  | .error _ => {}

def c2SModel : SModel :=
  match c2Doc.model with
  | some sm => sm
  | none => {}

/-- A reaction with custom bounds used to exercise the fresh-parameter
branch of `_create_bound`. -/
def c2Rxn : CReaction := { id := str "r", lower_bound := -5, upper_bound := 5 }

/-- A document that parses but contains no model element. -/
def c3NoModelDoc : SDoc := { model := none }

/-- A document whose model has a reaction with neither FBC bound
references nor a kinetic law: reading it fails fatally. -/
def c3WitnessDoc : SDoc := { model := some { reactions := [{ id := str "R_x" }] } }

def c3WitnessSModel : SModel := { reactions := [{ id := str "R_x" }] }

/-- A document with no FBC package whose only reaction carries the note
`GENE_ASSOCIATION: (g1 and g2)` and legacy kinetic-law bounds. -/
def c5Doc : SDoc :=
  { model := some
      { reactions :=
          [{ id := str "R_r1"
             kineticLaw := some
               { parameters := [(str "LOWER_BOUND", -1000), (str "UPPER_BOUND", 1000)] }
             sbase := { notesString := str "<p>GENE_ASSOCIATION: (g1 and g2)</p>" }}] } }

/-- A document with a boundary-condition species `M_b` referenced by the
stoichiometry of reaction `R_r` (legacy kinetic-law bounds). -/
def c8Doc : SDoc :=
  { model := some
      { species := [{ id := str "M_b", compartment := str "c", boundaryCondition := true }]
        reactions :=
          [{ id := str "R_r"
             reactants := [{ species := str "M_b", stoichiometry := some 1 }]
             kineticLaw := some
               { parameters := [(str "LOWER_BOUND", -1000), (str "UPPER_BOUND", 1000)] }}] } }

/-- A legacy document without FBC: two reactions whose kinetic laws encode
distinct OBJECTIVE_COEFFICIENT values (2 for `R_r1`, 5 for `R_r2`). -/
def c9Doc : SDoc :=
  { model := some
      { reactions :=
          [{ id := str "R_r1"
             kineticLaw := some
               { parameters := [(str "LOWER_BOUND", -1000), (str "UPPER_BOUND", 1000),
                                (str "OBJECTIVE_COEFFICIENT", 2)] }},
           { id := str "R_r2"
             kineticLaw := some
               { parameters := [(str "LOWER_BOUND", -1000), (str "UPPER_BOUND", 1000),
                                (str "OBJECTIVE_COEFFICIENT", 5)] }}] } }

/-- A model with one metabolite, used to instantiate the writer species
theorem. -/
def c10Model : CModel := { metabolites := [{ id := str "m1", compartment := str "c" }] }

def c10Doc : SDoc :=
  match _model_to_sbml c10Model F_REPLACE true with
  | .ok d => d
  | .error _ => {}

def c10SModel : SModel :=
  match c10Doc.model with
  | some sm => sm
  | none => {}

-- ---------------------------------------------------------------------------
-- Helper lemmas about the string primitives.
-- ---------------------------------------------------------------------------

theorem replaceS_nil (pat rep : Str) : replaceS pat rep [] = [] := by
  cases pat with
  | nil => rfl
  | cons p ps => rfl

theorem replaceGo_skip (pat rep : Str) :
    ∀ (u s : Str), replaceGo pat rep (u ++ s) u.length = replaceGo pat rep s 0 := by
  intro u
  induction u with
  | nil => intro s; rfl
  | cons a u ih =>
    intro s
    show replaceGo pat rep (a :: (u ++ s)) (u.length + 1) = _
    rw [show replaceGo pat rep (a :: (u ++ s)) (u.length + 1)
        = replaceGo pat rep (u ++ s) u.length from rfl]
    exact ih s

theorem replaceS_cons_of_not_pre (pat rep : Str) (c : Char) (cs : Str)
    (h : pat.isPrefixOf (c :: cs) = false) :
    replaceS pat rep (c :: cs) = c :: replaceS pat rep cs := by
  cases pat with
  | nil => exact absurd h (by simp [List.isPrefixOf])
  | cons p ps =>
    show replaceGo (p :: ps) rep (c :: cs) 0 = c :: replaceGo (p :: ps) rep cs 0
    rw [replaceGo]
    rw [if_neg]
    simp [h]

theorem replaceS_append_self (pat rep t : Str) (hp : pat ≠ []) :
    replaceS pat rep (pat ++ t) = rep ++ replaceS pat rep t := by
  cases pat with
  | nil => exact absurd rfl hp
  | cons p ps =>
    show replaceGo (p :: ps) rep (p :: (ps ++ t)) 0 = rep ++ replaceGo (p :: ps) rep t 0
    rw [replaceGo]
    have hpre : (p :: ps).isPrefixOf (p :: (ps ++ t)) = true :=
      List.isPrefixOf_iff_prefix.mpr (List.prefix_append (p :: ps) t)
    rw [if_pos hpre]
    have hlen : (p :: ps).length - 1 = ps.length := by simp
    rw [hlen]
    rw [replaceGo_skip (p :: ps) rep ps t]

theorem replaceS_of_no_occurrence (pat rep : Str) :
    ∀ s : Str, ¬ pat <:+: s → replaceS pat rep s = s := by
  intro s
  induction s with
  | nil => intro _; rw [replaceS_nil]
  | cons c cs ih =>
    intro h
    cases hb : pat.isPrefixOf (c :: cs) with
    | true =>
      exact absurd ((List.isPrefixOf_iff_prefix.mp hb).isInfix) h
    | false =>
      rw [replaceS_cons_of_not_pre pat rep c cs hb]
      rw [ih (fun hi => h (List.infix_cons hi))]

theorem replaceS_dot_round_aux :
    ∀ (n : Nat) (s : Str), s.length ≤ n → '.' ∉ s →
      replaceS (str ".") SBML_DOT (replaceS SBML_DOT (str ".") s) = s := by
  intro n
  induction n with
  | zero =>
    intro s hl _
    have hs : s = [] := List.length_eq_zero.mp (Nat.le_zero.mp hl)
    subst hs
    rw [replaceS_nil, replaceS_nil]
  | succ n ih =>
    intro s hl hd
    cases hb : SBML_DOT.isPrefixOf s with
    | true =>
      obtain ⟨t, ht⟩ := List.isPrefixOf_iff_prefix.mp hb
      subst ht
      rw [replaceS_append_self SBML_DOT (str ".") t (by decide)]
      have hshape : str "." ++ replaceS SBML_DOT (str ".") t =
          str "." ++ replaceS SBML_DOT (str ".") t := rfl
      rw [replaceS_append_self (str ".") SBML_DOT (replaceS SBML_DOT (str ".") t) (by decide)]
      have hlen : t.length ≤ n := by
        have := hl
        simp only [List.length_append] at this
        have hsd : SBML_DOT.length = 12 := by decide
        omega
      have hdt : '.' ∉ t := fun hm => hd (List.mem_append.mpr (Or.inr hm))
      rw [ih t hlen hdt]
    | false =>
      cases s with
      | nil => rw [replaceS_nil, replaceS_nil]
      | cons c cs =>
        have hc : c ≠ '.' := by
          intro he
          exact hd (he ▸ List.mem_cons_self c cs)
        rw [replaceS_cons_of_not_pre SBML_DOT (str ".") c cs hb]
        have hb2 : (str ".").isPrefixOf (c :: replaceS SBML_DOT (str ".") cs) = false := by
          show List.isPrefixOf ['.'] _ = false
          simp only [List.isPrefixOf, Bool.and_eq_false_iff]
          left
          simp [beq_iff_eq]
          exact fun he => hc he.symm
        rw [replaceS_cons_of_not_pre (str ".") SBML_DOT c _ hb2]
        have hlen : cs.length ≤ n := by
          simp only [List.length_cons] at hl
          omega
        rw [ih cs hlen (fun hm => hd (List.mem_cons.mpr (Or.inr hm)))]

theorem replaceS_dot_round (s : Str) (h : '.' ∉ s) :
    replaceS (str ".") SBML_DOT (replaceS SBML_DOT (str ".") s) = s :=
  replaceS_dot_round_aux s.length s (Nat.le_refl _) h

theorem _clip_append (pre s : Str) : _clip (pre ++ s) pre = s := by
  unfold _clip
  rw [if_pos]
  · exact List.drop_left pre s
  · exact List.isPrefixOf_iff_prefix.mpr (List.prefix_append pre s)

theorem _clip_of_no_pre (x pre : Str) (h : pre.isPrefixOf x = false) : _clip x pre = x := by
  unfold _clip
  rw [if_neg]
  simp [h]

-- ---------------------------------------------------------------------------
-- Claim C6.
-- ---------------------------------------------------------------------------

/-- Claim C6 (corrected): the claimed identities hold unconditionally for
the specie and reaction codecs; for the gene codec, `restore(strip(x))`
recovers `x = G_ ++ s` provided the suffix `s` contains no literal dot
and does not begin with `_SBML_DOT__` (a dot-placeholder occurrence
overlapping the prefix), and `strip` is a no-op on an id that lacks the
`G_` prefix and contains no dot-placeholder occurrence. -/
theorem claim_C6_theorem :
    (∀ s : Str, _f_specie_rev (_f_specie (str "M_" ++ s)) = str "M_" ++ s) ∧
    (∀ x : Str, (str "M_").isPrefixOf x = false → _f_specie x = x) ∧
    (∀ s : Str, _f_reaction_rev (_f_reaction (str "R_" ++ s)) = str "R_" ++ s) ∧
    (∀ x : Str, (str "R_").isPrefixOf x = false → _f_reaction x = x) ∧
    (∀ s : Str, '.' ∉ s → (str "_SBML_DOT__").isPrefixOf s = false →
      _f_gene_rev (_f_gene (str "G_" ++ s)) = str "G_" ++ s) ∧
    (∀ x : Str, (str "G_").isPrefixOf x = false → ¬ SBML_DOT <:+: x → _f_gene x = x) := by
  refine ⟨?_, ?_, ?_, ?_, ?_, ?_⟩
  · intro s
    show _f_specie_rev (_clip (str "M_" ++ s) (str "M_")) = str "M_" ++ s
    rw [_clip_append]
    rfl
  · intro x h
    exact _clip_of_no_pre x (str "M_") h
  · intro s
    show _f_reaction_rev (_clip (str "R_" ++ s) (str "R_")) = str "R_" ++ s
    rw [_clip_append]
    rfl
  · intro x h
    exact _clip_of_no_pre x (str "R_") h
  · intro s hdot hover
    have hsd : SBML_DOT = '_' :: str "_SBML_DOT__" := by decide
    have h1 : SBML_DOT.isPrefixOf ('G' :: ('_' :: s)) = false := by
      rw [hsd]
      simp [List.isPrefixOf]
    have h2 : SBML_DOT.isPrefixOf ('_' :: s) = false := by
      rw [hsd]
      simp [List.isPrefixOf, hover]
    show _f_gene_rev (_clip (replaceS SBML_DOT (str ".") ('G' :: ('_' :: s))) (str "G_"))
        = str "G_" ++ s
    rw [replaceS_cons_of_not_pre SBML_DOT (str ".") 'G' _ h1]
    rw [replaceS_cons_of_not_pre SBML_DOT (str ".") '_' _ h2]
    have hsplit : ('G' : Char) :: ('_' :: replaceS SBML_DOT (str ".") s)
        = str "G_" ++ replaceS SBML_DOT (str ".") s := rfl
    rw [hsplit, _clip_append]
    show str "G_" ++ replaceS (str ".") SBML_DOT (replaceS SBML_DOT (str ".") s)
        = str "G_" ++ s
    rw [replaceS_dot_round s hdot]
  · intro x h1 h2
    show _clip (replaceS SBML_DOT (str ".") x) (str "G_") = x
    rw [replaceS_of_no_occurrence SBML_DOT (str ".") x h2]
    exact _clip_of_no_pre x (str "G_") h1

/-- Claim C6 counterexample: the gene id `G_a.b` carries the gene prefix,
yet `restore(strip(G_a.b))` yields `G_a__SBML_DOT__b`, not `G_a.b` — the
dot-escaping of the gene codec breaks the claimed identity. -/
theorem claim_C6_counterexample :
    _f_gene_rev (_f_gene (str "G_a.b")) = str "G_a__SBML_DOT__b" ∧
    _f_gene_rev (_f_gene (str "G_a.b")) ≠ str "G_a.b" := by
  constructor
  · decide
  · decide

/-- Claim C6 witness: the amended identities at concrete ids. -/
theorem claim_C6_witness :
    _f_specie_rev (_f_specie (str "M_" ++ str "glc_c")) = str "M_" ++ str "glc_c" ∧
    _f_reaction_rev (_f_reaction (str "R_" ++ str "PFK")) = str "R_" ++ str "PFK" ∧
    _f_gene_rev (_f_gene (str "G_" ++ str "b1010")) = str "G_" ++ str "b1010" ∧
    _f_gene (str "gene7") = str "gene7" := by
  refine ⟨claim_C6_theorem.1 (str "glc_c"),
          claim_C6_theorem.2.2.1 (str "PFK"),
          claim_C6_theorem.2.2.2.2.1 (str "b1010") (by decide) (by decide),
          claim_C6_theorem.2.2.2.2.2 (str "gene7") (by decide) (by decide)⟩

-- ---------------------------------------------------------------------------
-- Claim C4.
-- ---------------------------------------------------------------------------

/-- Claim C4 counterexample: the markup `<p>CHARGE: -2</p><p>FORMULA:
C6H12O6</p>` does not parse to a mapping containing `CHARGE`: the value
character class of the notes pattern has no `-`, so the CHARGE paragraph
never matches. -/
theorem claim_C4_counterexample :
    dictLookup (_parse_notes_dict (str "<p>CHARGE: -2</p><p>FORMULA: C6H12O6</p>"))
      (str "CHARGE") = none ∧
    _parse_notes_dict (str "<p>CHARGE: -2</p><p>FORMULA: C6H12O6</p>") ≠
      [(str "CHARGE", str "-2"), (str "FORMULA", str "C6H12O6")] := by
  constructor
  · decide
  · decide

/-- Claim C4 (corrected): the markup parses to `{FORMULA: C6H12O6}` alone
(the CHARGE entry is dropped because `-` is outside the `[\w|\s]` value
class); and for every notes input, every key of the result carries a
non-empty (trimmed) value. -/
theorem claim_C4_theorem :
    _parse_notes_dict (str "<p>CHARGE: -2</p><p>FORMULA: C6H12O6</p>") =
      [(str "FORMULA", str "C6H12O6")] ∧
    ∀ (notes : Str) (kv : Str × Str), kv ∈ _parse_notes_dict notes → kv.2 ≠ [] := by
  constructor
  · decide
  · intro notes kv hm
    unfold _parse_notes_dict at hm
    split at hm
    · have hp := (List.mem_filter.mp hm).2
      intro he
      rw [he] at hp
      simp at hp
    · simp at hm

/-- Claim C4 witness: the non-emptiness guarantee applied to a concrete
parsed entry. -/
theorem claim_C4_witness : (str "C6H12O6" : Str) ≠ [] :=
  claim_C4_theorem.2 (str "<p>FORMULA: C6H12O6</p>") (str "FORMULA", str "C6H12O6")
    (by decide)

-- ---------------------------------------------------------------------------
-- Claim C7.
-- ---------------------------------------------------------------------------

/-- Claim C7 (confirmed): serialising `{chebi: CHEBI:17234}` onto a fresh
element attaches exactly one CVTerm with the biological `is` qualifier and
the single resource `https://identifiers.org/chebi/CHEBI:17234`, leaves
the structural SBO term unset, and parsing the result returns exactly the
bare-string annotation `{chebi: CHEBI:17234}`. -/
theorem claim_C7_theorem :
    _sbase_annotations (str "M_x") {} [(str "chebi", .one (str "CHEBI:17234"))] =
      .ok { metaId := str "meta_M_x"
            sboTerm := none
            cvterms := [{ qualifierType := .biological
                          qualifier := .BQB_IS
                          resources := [str "https://identifiers.org/chebi/CHEBI:17234"] }]
            notesString := [] } ∧
    (match _sbase_annotations (str "M_x") {} [(str "chebi", .one (str "CHEBI:17234"))] with
     | .ok sb => _parse_annotations sb
     | .error _ => []) = [(str "chebi", .one (str "CHEBI:17234"))] := by
  constructor
  · rfl
  · rfl

-- ---------------------------------------------------------------------------
-- Claim C1.
-- ---------------------------------------------------------------------------

/-- Claim C1 (code bug): `c1Model` uses only canonical features (plain
finite bounds, empty stoichiometries, no genes, no groups, empty
objective), yet `read(write(M))` under the default identifier codec does
not reproduce the bounds: `r1` comes back with lower bound `-2000` instead
of `-1000`, because the writer stores the model-wide minimum under the
shared default-lower-bound parameter that `_create_bound` hands to every
reaction sitting exactly at the configured default. -/
theorem claim_C1_theorem :
    c1Model.reactions.map (fun r => (r.id, r.lower_bound, r.upper_bound)) =
      [(str "r1", -1000, 1000), (str "r2", -2000, 1000)] ∧
    ((_model_to_sbml c1Model F_REPLACE true).toOption.bind
        (fun d => (_sbml_to_model d F_REPLACE floatNumber).toOption)).map
        (fun m => m.reactions.map (fun r => (r.id, r.lower_bound, r.upper_bound))) =
      some [(str "r1", -2000, 1000), (str "r2", -2000, 1000)] := by
  constructor
  · rfl
  · rfl

-- ---------------------------------------------------------------------------
-- Claim C5.
-- ---------------------------------------------------------------------------

/-- Claim C5 (code bug): in `c5Doc` the only reaction carries the note
markup `<p>GENE_ASSOCIATION: (g1 and g2)</p>` and the document has no FBC
gene products, yet reading yields a model with no genes at all and an
empty gene-association string: the notes pattern rejects values containing
parentheses, so the GENE_ASSOCIATION note is never seen (the reader's own
shredding code at source lines 414-417 explicitly prepares for
parenthesised values, which can never reach it). -/
theorem claim_C5_theorem :
    dictLookup (_parse_notes_dict (str "<p>GENE_ASSOCIATION: (g1 and g2)</p>"))
      (str "GENE_ASSOCIATION") = none ∧
    (_sbml_to_model c5Doc F_REPLACE floatNumber).toOption.map
      (fun m => (m.genes.map (fun g => g.id),
                 m.reactions.map (fun r => r.gene_reaction_rule))) =
      some ([], [[]]) := by
  constructor
  · decide
  · rfl

-- ---------------------------------------------------------------------------
-- Claim C8.
-- ---------------------------------------------------------------------------

/-- Claim C8 (code bug): in `c8Doc` the species `M_b` has the
boundary-condition flag set and is referenced by reaction `R_r`, yet under
the default prefix-stripping codec the read model keeps the reference
(stoichiometry `b -> -1`): the boundary set stores the raw document ids
(`M_b`) while the stoichiometry keys have already been stripped (`b`), so
the drop never fires. -/
theorem claim_C8_theorem :
    (c8Doc.model.map (fun sm => sm.species.map (fun s => (s.id, s.boundaryCondition)))) =
      some [(str "M_b", true)] ∧
    (_sbml_to_model c8Doc F_REPLACE floatNumber).toOption.map
      (fun m => m.reactions.map (fun r => r.metabolites)) =
      some [[(str "b", -1)]] := by
  constructor
  · rfl
  · decide

-- ---------------------------------------------------------------------------
-- Claim C9.
-- ---------------------------------------------------------------------------

/-- Claim C9 (code bug): in `c9Doc` reaction `R_r1` encodes
`OBJECTIVE_COEFFICIENT = 2` in its own kinetic law and `R_r2` encodes `5`,
yet the read model assigns coefficient `5` to both reactions: the legacy
objective loop reads the parameter from `r.getKineticLaw()`, where `r` is
the stale loop variable holding the last document reaction, instead of
from the reaction being processed. -/
theorem claim_C9_theorem :
    (c9Doc.model.map (fun sm => sm.reactions.map (fun r =>
        r.kineticLaw.map (fun k => dictLookup k.parameters (str "OBJECTIVE_COEFFICIENT"))))) =
      some [some (some 2), some (some 5)] ∧
    (_sbml_to_model c9Doc F_REPLACE floatNumber).toOption.map
      (fun m => m.objectiveCoefficients) =
      some [(str "r1", 5), (str "r2", 5)] := by
  constructor
  · rfl
  · rfl

-- ---------------------------------------------------------------------------
-- Claim C3.
-- ---------------------------------------------------------------------------

/-- Claim C3 counterexample: a malformed input that yields a document with
no model element makes `validate_sbml_model` raise `CobraSBMLError`
instead of returning `(None, errors)`. -/
theorem claim_C3_counterexample :
    validate_sbml_model c3NoModelDoc false [] true (fun _ => []) =
      .error (str "No SBML model detected in file.") := rfl

/-- Claim C3 (corrected): for every document that does contain a model,
validation with the external schema check disabled never raises; and when
the model conversion fails with a `CobraSBMLError`, it returns `None`
together with the error map carrying that message under `SBML errors`. -/
theorem claim_C3_theorem :
    ∀ (doc : SDoc) (sm : SModel) (check_model : Bool) (checker : CModel → List Str),
      doc.model = some sm →
      (validate_sbml_model doc false [] check_model checker).isOk = true ∧
      (∀ msg, _sbml_to_model doc emptyF floatNumber = .error (.cobraError msg) →
        validate_sbml_model doc false [] check_model checker =
          .ok (none, [(str "validator", []), (str "warnings", []), (str "other", []),
                      (str "SBML errors", [msg])])) := by
  intro doc sm check_model checker hmodel
  constructor
  · unfold validate_sbml_model
    rw [hmodel]
    cases hread : _sbml_to_model doc emptyF floatNumber with
    | error e =>
      cases e with
      | cobraError m => simp [hread, errAppend, Except.isOk, Except.toBool]
      | otherError m => simp [hread, errAppend, Except.isOk, Except.toBool]
    | ok model => simp [hread, Except.isOk, Except.toBool]
  · intro msg hmsg
    unfold validate_sbml_model
    rw [hmodel, hmsg]
    rfl

/-- Claim C3 witness: validating a document whose single reaction has no
flux bounds returns `None` plus the fatal message, without raising. -/
theorem claim_C3_witness :
    validate_sbml_model c3WitnessDoc false [] true (fun _ => []) =
      .ok (none, [(str "validator", []), (str "warnings", []), (str "other", []),
                  (str "SBML errors", [str "No flux bounds on reaction R_x"])]) :=
  (claim_C3_theorem c3WitnessDoc c3WitnessSModel true (fun _ => []) rfl).2
    (str "No flux bounds on reaction R_x") rfl

-- ---------------------------------------------------------------------------
-- Structural lemmas about the writer, shared by claims C2 and C10.
-- ---------------------------------------------------------------------------

theorem exMapM_mem {α β ε : Type} {f : α → Except ε β} :
    ∀ {l : List α} {ys : List β}, exMapM f l = .ok ys →
      ∀ y ∈ ys, ∃ x ∈ l, f x = .ok y := by
  intro l
  induction l with
  | nil =>
    intro ys h y hy
    unfold exMapM at h
    injection h with h2
    subst h2
    simp at hy
  | cons x xs ih =>
    intro ys h y hy
    unfold exMapM at h
    cases hfx : f x with
    | error e => rw [hfx] at h; cases h
    | ok b =>
      rw [hfx] at h
      cases hrest : exMapM f xs with
      | error e => rw [hrest] at h; cases h
      | ok bs =>
        rw [hrest] at h
        injection h with h2
        subst h2
        rcases List.mem_cons.mp hy with h1 | h2
        · exact ⟨x, List.mem_cons_self x xs, h1 ▸ hfx⟩
        · obtain ⟨x2, hx2, hfx2⟩ := ih hrest y h2
          exact ⟨x2, List.mem_cons.mpr (Or.inr hx2), hfx2⟩

theorem writeSpecies_flags (f : FReplace) (met : CMetabolite) (s : SSpecies)
    (h : writeSpecies f met = .ok s) :
    s.constant = true ∧ s.boundaryCondition = true := by
  cases hann : _sbase_annotations (applyF f.fSpecieRev met.id) {} met.annot with
  | error e =>
    simp only [writeSpecies, hann] at h
    exact Except.noConfusion h
  | ok sb1 =>
    simp only [writeSpecies, hann, Except.ok.injEq] at h
    subst h
    exact ⟨rfl, rfl⟩

theorem _create_bound_params_delta (params : List SParameter) (rxn : CReaction)
    (bt : BoundKind) (f : FReplace) (units : Bool) (fid : Option Str) :
    ∃ extra, (_create_bound params rxn bt f units fid).2 = params ++ extra ∧
      ∀ p ∈ extra, p.sbo = some SBO_FLUX_BOUND := by
  cases bt <;>
    (simp only [_create_bound]
     split
     · exact ⟨[], by simp, by simp⟩
     · split
       · exact ⟨[], by simp, by simp⟩
       · split
         · exact ⟨[], by simp, by simp⟩
         · refine ⟨_, rfl, ?_⟩
           intro p hp
           rw [List.mem_singleton.mp hp])

theorem writeReaction_params (f : FReplace) (units : Bool) (fluxUdef : Option SUnitDef)
    (coeffs objCoeffs : Dict Rat) (st : WState) (rxn : CReaction) (st2 : WState)
    (h : writeReaction f units fluxUdef coeffs objCoeffs st rxn = .ok st2) :
    ∃ extra, st2.params = st.params ++ extra ∧
      ∀ p ∈ extra, p.sbo = some SBO_FLUX_BOUND := by
  cases hann : _sbase_annotations (applyF f.fReactionRev rxn.id) {} rxn.annot with
  | error e =>
    simp only [writeReaction, hann] at h
    exact Except.noConfusion h
  | ok sb1 =>
    cases fluxUdef with
    | none =>
      simp only [writeReaction, hann] at h
      exact Except.noConfusion h
    | some u =>
      simp only [writeReaction, hann, Except.ok.injEq] at h
      subst h
      obtain ⟨e1, he1, hp1⟩ :=
        _create_bound_params_delta st.params rxn .lower_bound f units (some u.id)
      obtain ⟨e2, he2, hp2⟩ :=
        _create_bound_params_delta
          (_create_bound st.params rxn .lower_bound f units (some u.id)).2
          rxn .upper_bound f units (some u.id)
      refine ⟨e1 ++ e2, ?_, ?_⟩
      · show (_create_bound
            (_create_bound st.params rxn .lower_bound f units (some u.id)).2
            rxn .upper_bound f units (some u.id)).2 = st.params ++ (e1 ++ e2)
        rw [he2, he1, List.append_assoc]
      · intro p hp
        rcases List.mem_append.mp hp with h1 | h2
        · exact hp1 p h1
        · exact hp2 p h2

theorem writeReactions_params (f : FReplace) (units : Bool) (fluxUdef : Option SUnitDef)
    (coeffs objCoeffs : Dict Rat) :
    ∀ (rs : List CReaction) (st st2 : WState),
      writeReactions f units fluxUdef coeffs objCoeffs rs st = .ok st2 →
      ∃ extra, st2.params = st.params ++ extra ∧
        ∀ p ∈ extra, p.sbo = some SBO_FLUX_BOUND := by
  intro rs
  induction rs with
  | nil =>
    intro st st2 h
    unfold writeReactions at h
    injection h with h2
    subst h2
    exact ⟨[], by simp, by simp⟩
  | cons r rest ih =>
    intro st st2 h
    unfold writeReactions at h
    cases hw : writeReaction f units fluxUdef coeffs objCoeffs st r with
    | error e => rw [hw] at h; cases h
    | ok stMid =>
      rw [hw] at h
      obtain ⟨e1, he1, hp1⟩ := writeReaction_params f units fluxUdef coeffs objCoeffs st r stMid hw
      obtain ⟨e2, he2, hp2⟩ := ih stMid st2 h
      refine ⟨e1 ++ e2, ?_, ?_⟩
      · rw [he2, he1, List.append_assoc]
      · intro p hp
        rcases List.mem_append.mp hp with h1 | h2
        · exact hp1 p h1
        · exact hp2 p h2

theorem _model_to_sbml_shape (m : CModel) (f : FReplace) (units : Bool) (d : SDoc)
    (h : _model_to_sbml m f units = .ok d) :
    ∃ sm st,
      d.model = some sm ∧
      exMapM (writeSpecies f) m.metabolites = .ok sm.species ∧
      writeReactions f units (if units then some UNITS_FLUX else none)
        (linear_reaction_coefficients m) m.objectiveCoefficients m.reactions
        { params := writerParams0 m } = .ok st ∧
      sm.parameters = st.params := by
  cases hds : writeDocSbase m with
  | error e =>
    simp only [_model_to_sbml, hds] at h
    exact Except.noConfusion h
  | ok dsb =>
    cases hsp : exMapM (writeSpecies f) m.metabolites with
    | error e =>
      simp only [_model_to_sbml, hds, hsp] at h
      exact Except.noConfusion h
    | ok species =>
      cases hgp : exMapM (writeGeneProduct f) m.genes with
      | error e =>
        simp only [_model_to_sbml, hds, hsp, hgp] at h
        exact Except.noConfusion h
      | ok gps =>
        cases hwr : writeReactions f units (if units then some UNITS_FLUX else none)
            (linear_reaction_coefficients m) m.objectiveCoefficients m.reactions
            { params := writerParams0 m } with
        | error e =>
          simp only [_model_to_sbml, hds, hsp, hgp, hwr] at h
          exact Except.noConfusion h
        | ok st =>
          cases hgr : writeGroupsOpt f m.groups with
          | error e =>
            simp only [_model_to_sbml, hds, hsp, hgp, hwr, hgr] at h
            exact Except.noConfusion h
          | ok groupsP =>
            simp only [_model_to_sbml, hds, hsp, hgp, hwr, hgr, Except.ok.injEq] at h
            subst h
            exact ⟨_, st, rfl, rfl, rfl, rfl⟩

-- ---------------------------------------------------------------------------
-- Claim C10.
-- ---------------------------------------------------------------------------

/-- Claim C10 (confirmed): every species element emitted by the writer has
`constant = true` and `boundaryCondition = true`, so the boundary-species
set collected by the reader over a written document contains every written
species. -/
theorem claim_C10_theorem :
    ∀ (m : CModel) (f : FReplace) (units : Bool) (d : SDoc) (sm : SModel),
      _model_to_sbml m f units = .ok d → d.model = some sm →
      (∀ s ∈ sm.species, s.constant = true ∧ s.boundaryCondition = true) ∧
      boundaryIds sm.species = sm.species.map (fun s => s.id) := by
  intro m f units d sm h hm
  obtain ⟨sm2, st, hsm2, hspecies, _, _⟩ := _model_to_sbml_shape m f units d h
  rw [hm] at hsm2
  injection hsm2 with hsm3
  subst hsm3
  have hflags : ∀ s ∈ sm.species, s.constant = true ∧ s.boundaryCondition = true := by
    intro s hs
    obtain ⟨met, _, hw⟩ := exMapM_mem hspecies s hs
    exact writeSpecies_flags f met s hw
  refine ⟨hflags, ?_⟩
  unfold boundaryIds
  rw [List.filter_eq_self.mpr (fun s hs => (hflags s hs).2)]

/-- Claim C10 witness: the theorem applied to the written document of a
one-metabolite model. -/
theorem claim_C10_witness :
    (∀ s ∈ c10SModel.species, s.constant = true ∧ s.boundaryCondition = true) ∧
    boundaryIds c10SModel.species = c10SModel.species.map (fun s => s.id) :=
  claim_C10_theorem c10Model F_REPLACE true c10Doc c10SModel rfl rfl

-- ---------------------------------------------------------------------------
-- Claim C2.
-- ---------------------------------------------------------------------------

/-- Claim C2 counterexample: writing a model whose single reaction has
custom bounds `[-5, 5]` materialises `cobra_default_lb` with value `-5` —
the model-wide minimum — not the process-wide configured default lower
bound `-1000`. -/
theorem claim_C2_counterexample :
    (match _model_to_sbml c2Model F_REPLACE true with
     | .ok d =>
       match d.model with
       | some sm => (getParameter sm LOWER_BOUND_ID).map (fun p => p.value)
       | none => none
     | .error _ => none) = some (-5) ∧ (-5 : Rat) ≠ LOWER_BOUND := by
  constructor
  · rfl
  · decide

/-- Claim C2 (corrected): the writer materialises exactly three
`SBO_DEFAULT_FLUX_BOUND`-tagged parameters with the fixed ids, but their
values are the model-wide minimum lower bound, the model-wide maximum
upper bound (the configured defaults only when the model has no
reactions) and zero; and `_create_bound` compares the bound value, in
this fixed order and regardless of the bound kind, against the configured
default lower bound, zero and the configured default upper bound,
creating the fresh parameter `<rewritten-reaction-id>_<bound_kind>` only
when all three comparisons fail. -/
theorem claim_C2_theorem :
    (∀ (m : CModel) (f : FReplace) (units : Bool) (d : SDoc) (sm : SModel),
      _model_to_sbml m f units = .ok d → d.model = some sm →
      sm.parameters.filter (fun p => p.sbo = some SBO_DEFAULT_FLUX_BOUND) =
        [{ id := LOWER_BOUND_ID, value := writerMinValue m, constant := true,
           sbo := some SBO_DEFAULT_FLUX_BOUND, units := none },
         { id := UPPER_BOUND_ID, value := writerMaxValue m, constant := true,
           sbo := some SBO_DEFAULT_FLUX_BOUND, units := none },
         { id := ZERO_BOUND_ID, value := 0, constant := true,
           sbo := some SBO_DEFAULT_FLUX_BOUND, units := none }]) ∧
    (∀ (params : List SParameter) (rxn : CReaction) (bt : BoundKind) (f : FReplace)
        (units : Bool) (fid : Option Str),
      (boundAttr rxn bt = LOWER_BOUND →
        _create_bound params rxn bt f units fid = (LOWER_BOUND_ID, params)) ∧
      (boundAttr rxn bt ≠ LOWER_BOUND → boundAttr rxn bt = 0 →
        _create_bound params rxn bt f units fid = (ZERO_BOUND_ID, params)) ∧
      (boundAttr rxn bt ≠ LOWER_BOUND → boundAttr rxn bt ≠ 0 →
        boundAttr rxn bt = UPPER_BOUND →
        _create_bound params rxn bt f units fid = (UPPER_BOUND_ID, params)) ∧
      (boundAttr rxn bt ≠ LOWER_BOUND → boundAttr rxn bt ≠ 0 →
        boundAttr rxn bt ≠ UPPER_BOUND →
        _create_bound params rxn bt f units fid =
          (applyF f.fReactionRev rxn.id ++ [ '_' ] ++ bt.attrName,
           params ++ [{ id := applyF f.fReactionRev rxn.id ++ [ '_' ] ++ bt.attrName,
                        value := boundAttr rxn bt, constant := true,
                        sbo := some SBO_FLUX_BOUND,
                        units := if units then fid else none }]))) := by
  constructor
  · intro m f units d sm h hm
    obtain ⟨sm2, st, hsm2, _, hwr, hparams⟩ := _model_to_sbml_shape m f units d h
    rw [hm] at hsm2
    injection hsm2 with hsm3
    subst hsm3
    obtain ⟨extra, hex, hflux⟩ :=
      writeReactions_params f units (if units then some UNITS_FLUX else none)
        (linear_reaction_coefficients m) m.objectiveCoefficients m.reactions
        { params := writerParams0 m } st hwr
    rw [hparams, hex]
    have hinit : ({ params := writerParams0 m : WState }).params = writerParams0 m := rfl
    rw [hinit, List.filter_append]
    have h1 : (writerParams0 m).filter (fun p => p.sbo = some SBO_DEFAULT_FLUX_BOUND) =
        [{ id := LOWER_BOUND_ID, value := writerMinValue m, constant := true,
           sbo := some SBO_DEFAULT_FLUX_BOUND, units := none },
         { id := UPPER_BOUND_ID, value := writerMaxValue m, constant := true,
           sbo := some SBO_DEFAULT_FLUX_BOUND, units := none },
         { id := ZERO_BOUND_ID, value := 0, constant := true,
           sbo := some SBO_DEFAULT_FLUX_BOUND, units := none }] := by
      simp [writerParams0, _create_parameter]
    have h2 : extra.filter (fun p => p.sbo = some SBO_DEFAULT_FLUX_BOUND) = [] := by
      rw [List.filter_eq_nil_iff]
      intro p hp
      rw [hflux p hp]
      decide
    rw [h1, h2, List.append_nil]
  · intro params rxn bt f units fid
    refine ⟨?_, ?_, ?_, ?_⟩
    · intro h1
      simp only [_create_bound]
      rw [if_pos h1]
    · intro h1 h2
      simp only [_create_bound]
      rw [if_neg h1, if_pos h2]
    · intro h1 h2 h3
      simp only [_create_bound]
      rw [if_neg h1, if_neg h2, if_pos h3]
    · intro h1 h2 h3
      simp only [_create_bound]
      rw [if_neg h1, if_neg h2, if_neg h3]
      rfl

/-- Claim C2 witness: the amended statements at the concrete one-reaction
model with bounds `[-5, 5]` and at a concrete `_create_bound` call. -/
theorem claim_C2_witness :
    c2SModel.parameters.filter (fun p => p.sbo = some SBO_DEFAULT_FLUX_BOUND) =
      [{ id := LOWER_BOUND_ID, value := -5, constant := true,
         sbo := some SBO_DEFAULT_FLUX_BOUND, units := none },
       { id := UPPER_BOUND_ID, value := 5, constant := true,
         sbo := some SBO_DEFAULT_FLUX_BOUND, units := none },
       { id := ZERO_BOUND_ID, value := 0, constant := true,
         sbo := some SBO_DEFAULT_FLUX_BOUND, units := none }] ∧
    _create_bound [] c2Rxn .lower_bound F_REPLACE true (some (str "u")) =
      (str "R_r_lower_bound",
       [{ id := str "R_r_lower_bound", value := -5, constant := true,
          sbo := some SBO_FLUX_BOUND, units := some (str "u") }]) := by
  constructor
  · exact (claim_C2_theorem.1 c2Model F_REPLACE true c2Doc c2SModel rfl rfl).trans (by decide)
  · exact ((claim_C2_theorem.2 [] c2Rxn .lower_bound F_REPLACE true (some (str "u"))).2.2.2
      (by decide) (by decide) (by decide)).trans (by decide)

end Cobra
